import Mathlib

/-!
Verification development for the camera-viewer backend (Tauri/Rust).

The Rust sources under src-tauri/src are shallowly embedded: pure string and
list manipulation is translated directly; stateful commands become explicit
state-passing functions over an `AppState`-like record; the outside world
(subprocess spawns, filesystem, the SQLite driver, the HTTP/UDP stack, clock
and RNG) is passed in as an explicit environment value per call; Rust
`Result<T, String>` becomes `Except String T`; a Rust panic (`expect`) is a
separate `Outcome.panic` constructor, distinct from an `Err` return value.
-/

namespace CamViewer

/-- Boolean test that an `Except` is `Except.ok`. -/
def resOk : Except String α → Bool
  | .ok _ => true
  | .error _ => false

/-- Is `pat` a prefix of `l`? -/
def isPrefixList : List Char → List Char → Bool
  | [], _ => true
  | _ :: _, [] => false
  | a :: as, b :: bs => a == b && isPrefixList as bs

/-- Does `pat` occur as a contiguous sublist of `l`? -/
def hasSubstrList (pat : List Char) : List Char → Bool
  | [] => pat.isEmpty
  | c :: rest => isPrefixList pat (c :: rest) || hasSubstrList pat rest

/-- Boolean substring test: `pat` occurs in `s` (for non-empty `pat`),
modelling Rust `str::contains`. -/
def containsSubstr (s pat : String) : Bool :=
  hasSubstrList pat.data s.data

/-- Whitespace splitter over characters: `cur` holds the current token,
reversed. -/
def splitWsAux : List Char → List Char → List (List Char)
  | [], cur => if cur.isEmpty then [] else [cur.reverse]
  | c :: rest, cur =>
      if c.isWhitespace then
        if cur.isEmpty then splitWsAux rest []
        else cur.reverse :: splitWsAux rest []
      else splitWsAux rest (c :: cur)

/-- Rust `str::split_whitespace`: split on whitespace runs, dropping empty
tokens. -/
def splitWs (s : String) : List String :=
  (splitWsAux s.data []).map String.mk

/-- Characters before the first occurrence of `pat` (the whole list when
`pat` is absent). -/
def takeUntilPat (pat : List Char) : List Char → List Char
  | [] => []
  | c :: rest =>
      if isPrefixList pat (c :: rest) then [] else c :: takeUntilPat pat rest

/-- Rust `s.split(pat).last().unwrap_or("")` for a non-empty `pat`: the text
after the last occurrence of `pat`, or all of `s` when `pat` is absent
(computed by scanning the reversal). -/
def lastSplitOn (s pat : String) : String :=
  String.mk (takeUntilPat pat.data.reverse s.data.reverse).reverse

/-- Association-list lookup keyed by camera id, modelling `HashMap::get` /
`contains_key` on the two process maps. -/
def lookupA (k : Int) : List (Int × Nat) → Option Nat
  | [] => none
  | (k2, v) :: rest => if k2 = k then some v else lookupA k rest

/-- Association-list removal, modelling `HashMap::remove`. -/
def removeA (k : Int) (l : List (Int × Nat)) : List (Int × Nat) :=
  l.filter (fun p => p.1 != k)

/-- Association-list insert, modelling `HashMap::insert` (replaces any entry
with the same key). -/
def insertA (k : Int) (v : Nat) (l : List (Int × Nat)) : List (Int × Nat) :=
  removeA k l ++ [(k, v)]

/-- Number of entries of the map with the given key. -/
def countKey (k : Int) (l : List (Int × Nat)) : Nat :=
  (l.filter (fun p => p.1 == k)).length

/-! ## Process Supervisor model (stream.rs)

`Camera` keeps only the fields the supervisor claims need (`models::Camera`
has many more descriptive fields; none of them influences the control flow
modelled here beyond building the transcoder argv, which is treated as part
of the opaque spawn).  The SQLite tables `cameras` and `recordings`, the two
process maps and the per-camera stream directories form the state `St`. -/

structure Camera where
  id : Int
  user : Option String := none
  pass : Option String := none
  deriving DecidableEq, Repr

/-- One row of the `recordings` table (the columns the claims are about). -/
structure RecRow where
  recId : Nat
  cameraId : Int
  filename : String
  thumbnail : Option String := none
  isFinished : Bool
  deriving DecidableEq, Repr

/-- The supervisor-visible state: `cameras` and `recordings` model the two
SQLite tables; `processes` and `recProcesses` are the two in-memory child
maps of `AppState`; `streamDirs` records which per-camera HLS segment
directories exist on disk; `nextRecId` models SQLite row-id assignment. -/
structure St where
  cameras : List Int
  processes : List (Int × Nat)
  recProcesses : List (Int × Nat)
  recordings : List RecRow
  streamDirs : List Int
  nextRecId : Nat
  deriving DecidableEq, Repr

/-- Side effects an operation performs on the outside world. -/
inductive Ev
  | dirRemoved (cameraId : Int)
  | dirCreated (cameraId : Int)
  | spawned (pid : Nat)
  | killed (pid : Nat)
  deriving DecidableEq, Repr

/-- Environment for one `start_stream` call: outcomes of the fallible
external steps, in program order.  `spawn = none` means `Command::spawn`
failed. -/
structure StreamEnv where
  removeDirOk : Bool
  createDirOk : Bool
  rtspOk : Bool
  encoderOk : Bool
  spawn : Option Nat
  deriving DecidableEq, Repr

/-- Environment for one `stop_stream` call: whether the cleanup
`Connection::open` (inside `if let Ok(conn)`) succeeds. -/
structure StopStreamEnv where
  recDbOk : Bool
  deriving DecidableEq, Repr

/-- Environment for one `start_recording_internal` call.  `dbOk` covers the
connection used for the camera lookup; `insertOk` the transaction that
inserts the pending row after the spawn. -/
structure StartRecEnv where
  dbOk : Bool
  rtspOk : Bool
  encoderOk : Bool
  spawn : Option Nat
  insertOk : Bool
  deriving DecidableEq, Repr

/-- Environment for one `stop_recording_internal` call: connection open,
whether the temp `.ts` file still exists, remux and thumbnail outcomes, and
the JST timestamp used for the final filename. -/
structure StopRecEnv where
  dbOk : Bool
  tempExists : Bool
  remuxOk : Bool
  thumbOk : Bool
  timestamp : String
  deriving DecidableEq, Repr

/-- Relative playlist path returned by `start_stream`
(Rust `format!("streams/{}/index.m3u8", id)`). -/
def streamPath (id : Int) : String :=
  "streams/" ++ toString id ++ "/index.m3u8"

/-- `stream::start_stream` (stream.rs:54-201).  Early idempotent return when
the camera already has a streaming child; otherwise delete-and-recreate the
segment directory, resolve the RTSP url, select an encoder, spawn the
transcoder and register the child. -/
def start_stream (env : StreamEnv) (cam : Camera) (st : St) :
    Except String String × St × List Ev :=
  let id := cam.id
  if (lookupA id st.processes).isSome then
    (.ok (streamPath id), st, [])
  else
    if st.streamDirs.contains id && !env.removeDirOk then
      (.error "remove_dir_all failed", st, [])
    else
      let evs1 := if st.streamDirs.contains id then [Ev.dirRemoved id] else []
      let st1 := { st with streamDirs := st.streamDirs.filter (fun d => d != id) }
      if !env.createDirOk then (.error "create_dir_all failed", st1, evs1)
      else
        let st2 := { st1 with streamDirs := id :: st1.streamDirs }
        let evs2 := evs1 ++ [Ev.dirCreated id]
        if !env.rtspOk then (.error "rtsp url resolution failed", st2, evs2)
        else if !env.encoderOk then (.error "encoder selector failed", st2, evs2)
        else
          match env.spawn with
          | none => (.error "Failed to start ffmpeg", st2, evs2)
          | some pid =>
              (.ok (streamPath id),
               { st2 with processes := insertA id pid st2.processes },
               evs2 ++ [Ev.spawned pid])

/-- Rows of the `recordings` table that are `is_finished = 0` for a camera. -/
def unfinishedFor (id : Int) (rows : List RecRow) : List RecRow :=
  rows.filter (fun r => r.cameraId == id && !r.isFinished)

/-- Number of `is_finished = 0` rows for a camera. -/
def countUnfinished (id : Int) (rows : List RecRow) : Nat :=
  (unfinishedFor id rows).length

/-- `stream::stop_stream` (stream.rs:203-274).  Kill and reap the streaming
child if present; then, only when a recording child is also present, kill it
too and (when the cleanup connection opens) delete every `is_finished = 0`
row for the camera.  A failed cleanup `Connection::open` is silently
ignored (`if let Ok(conn)`). -/
def stop_stream (env : StopStreamEnv) (id : Int) (st : St) :
    Except String Unit × St × List Ev :=
  let sOpt := lookupA id st.processes
  let st1 := { st with processes := removeA id st.processes }
  let evs1 := match sOpt with | some pid => [Ev.killed pid] | none => []
  match lookupA id st1.recProcesses with
  | some pid =>
      let st2 := { st1 with recProcesses := removeA id st1.recProcesses }
      let evs2 := evs1 ++ [Ev.killed pid]
      if env.recDbOk then
        (.ok (),
         { st2 with recordings :=
             st2.recordings.filter (fun r => !(r.cameraId == id && !r.isFinished)) },
         evs2)
      else (.ok (), st2, evs2)
  | none => (.ok (), st1, evs1)

/-- `stream::start_recording_internal` (stream.rs:295-503).  Fail fast when
already recording; look the camera up in the database; resolve the input
url; select an encoder; spawn the transcoder FIRST; only then insert the
pending `is_finished = 0` row in a transaction, and finally register the
child handle. -/
def start_recording_internal (env : StartRecEnv) (cameraId : Int) (st : St) :
    Except String Unit × St × List Ev :=
  if (lookupA cameraId st.recProcesses).isSome then
    (.error "Recording is already in progress", st, [])
  else if !env.dbOk then (.error "db connection failed", st, [])
  else if !(st.cameras.contains cameraId) then (.error "Camera not found", st, [])
  else if !env.rtspOk then (.error "rtsp url resolution failed", st, [])
  else if !env.encoderOk then (.error "encoder selector failed", st, [])
  else
    match env.spawn with
    | none => (.error "Failed to start recording ffmpeg", st, [])
    | some pid =>
        if !env.insertOk then
          (.error "Failed to commit recording transaction", st, [Ev.spawned pid])
        else
          let row : RecRow :=
            { recId := st.nextRecId, cameraId := cameraId,
              filename := "temp_rec_" ++ toString cameraId ++ ".ts",
              isFinished := false }
          (.ok (),
           { st with recordings := st.recordings ++ [row],
                     nextRecId := st.nextRecId + 1,
                     recProcesses := insertA cameraId pid st.recProcesses },
           [Ev.spawned pid])

/-- The `SELECT ... WHERE camera_id = ? AND is_finished = 0 ORDER BY
start_time DESC LIMIT 1` query.  `start_time` values are written at insert
time with the current clock, so insertion order stands in for the time
order: the query returns the last-inserted unfinished row. -/
def lastUnfinished (id : Int) (rows : List RecRow) : Option RecRow :=
  (unfinishedFor id rows).getLast?

/-- The finalizing `UPDATE recordings SET is_finished = 1, filename = ?,
thumbnail = ?, end_time = ? WHERE id = ?`. -/
def finishRow (recId : Nat) (finalName : String) (thumb : Option String)
    (rows : List RecRow) : List RecRow :=
  rows.map (fun r =>
    if r.recId == recId then
      { r with isFinished := true, filename := finalName, thumbnail := thumb }
    else r)

/-- The garbage-collecting `DELETE FROM recordings WHERE id = ?`. -/
def deleteRow (recId : Nat) (rows : List RecRow) : List RecRow :=
  rows.filter (fun r => r.recId != recId)

/-- `stream::stop_recording_internal` (stream.rs:520-655).  Remove and kill
the child if present; locate the youngest unfinished row; when its temp file
exists, remux (a remux failure returns `Err` and leaves the row
`is_finished = 0`), generate a best-effort thumbnail and finalize the row;
when the temp file is gone, delete the dangling row; with neither a child
nor a row the call is a successful no-op. -/
def stop_recording_internal (env : StopRecEnv) (cameraId : Int) (st : St) :
    Except String Unit × St × List Ev :=
  let procOpt := lookupA cameraId st.recProcesses
  let st1 := { st with recProcesses := removeA cameraId st.recProcesses }
  let evs := match procOpt with | some pid => [Ev.killed pid] | none => []
  if !env.dbOk then (.error "db connection failed", st1, evs)
  else
    match lastUnfinished cameraId st1.recordings with
    | some row =>
        if env.tempExists then
          if !env.remuxOk then (.error "FFmpeg remux failed", st1, evs)
          else
            let finalName :=
              "rec_" ++ toString cameraId ++ "_" ++ env.timestamp ++ ".mp4"
            let thumb := if env.thumbOk then some (finalName ++ ".jpg") else none
            (.ok (),
             { st1 with recordings := finishRow row.recId finalName thumb st1.recordings },
             evs)
        else
          (.ok (), { st1 with recordings := deleteRow row.recId st1.recordings }, evs)
    | none => (.ok (), st1, evs)

/-- One supervisor operation together with its call environment. -/
inductive Op
  | startStreamOp (env : StreamEnv) (cam : Camera)
  | stopStreamOp (env : StopStreamEnv) (id : Int)
  | startRecOp (env : StartRecEnv) (id : Int)
  | stopRecOp (env : StopRecEnv) (id : Int)
  deriving Repr

/-- State reached after an operation (result and events discarded). -/
def applyOp (st : St) : Op → St
  | .startStreamOp env cam => (start_stream env cam st).2.1
  | .stopStreamOp env id => (stop_stream env id st).2.1
  | .startRecOp env id => (start_recording_internal env id st).2.1
  | .stopRecOp env id => (stop_recording_internal env id st).2.1

/-- Run a sequence of supervisor operations. -/
def runOps (init : St) (ops : List Op) : St :=
  ops.foldl applyOp init

/-- Does the operation target camera `id` with `stop_recording` or
`stop_stream` (the two calls the spec allows to end a recording)? -/
def stopsRecordingOf (id : Int) : Op → Bool
  | .stopRecOp _ j => j == id
  | .stopStreamOp _ j => j == id
  | _ => false

/-- Row inserted by a successful `start_recording_internal` for a camera. -/
def pendingRow (cameraId : Int) (st : St) : RecRow :=
  { recId := st.nextRecId, cameraId := cameraId,
    filename := "temp_rec_" ++ toString cameraId ++ ".ts",
    isFinished := false }

/-! ## Encoder Selector and GPU functional test (encoder.rs, gpu_detector.rs) -/

/-- `encoder_settings` singleton row (models.rs / encoder_settings table). -/
structure EncoderSettings where
  id : Int
  encoderMode : String
  gpuEncoder : Option String
  cpuEncoder : String
  preset : String
  quality : Int
  deriving DecidableEq, Repr

/-- Result of `detect_gpu_capabilities` (gpu_detector.rs). -/
structure GpuCapabilities where
  availableEncoders : List String
  preferredEncoder : Option String
  gpuType : String
  gpuName : Option String
  deriving DecidableEq, Repr

/-- `encoder::EncoderConfig`. -/
structure EncoderConfig where
  codec : String
  args : List String
  isGpu : Bool
  deriving DecidableEq, Repr

/-- `encoder::EncoderSelector`. -/
structure EncoderSelector where
  capabilities : GpuCapabilities
  settings : EncoderSettings
  deriving DecidableEq, Repr

/-- Captured output of one finished subprocess (`std::process::Output`):
exit status and the diagnostic (stderr) text. -/
structure ProcOutput where
  exitSuccess : Bool
  stderr : String
  deriving DecidableEq, Repr

/-- Outcome of a Rust call: a normal return, an `Err` return value, or a
panic (`expect` / `unwrap`).  A panic is not an error result — the caller
never receives it as a value. -/
inductive Outcome (α : Type)
  | ok (a : α)
  | err (e : String)
  | panic (msg : String)
  deriving DecidableEq, Repr

/-- Whether an `Outcome` is an `Err` return value. -/
def Outcome.isErr : Outcome α → Bool
  | .err _ => true
  | _ => false

/-- Whether an `Outcome` is a panic. -/
def Outcome.isPanic : Outcome α → Bool
  | .panic _ => true
  | _ => false

/-- Argv for the functional encoder test (gpu_detector.rs:266-298): 1-second
`testsrc`, hardware-device initialization for qsv/vaapi, 10 frames to null
output. -/
def test_encoder_args (encoder : String) : List String :=
  let base := ["-f", "lavfi", "-i", "testsrc=duration=1:size=320x240:rate=30"]
  let hw :=
    if encoder == "h264_qsv" || encoder == "hevc_qsv" then
      ["-init_hw_device", "qsv=hw", "-filter_hw_device", "hw"]
    else if encoder == "h264_vaapi" || encoder == "hevc_vaapi" then
      ["-init_hw_device", "vaapi=va:/dev/dri/renderD128", "-filter_hw_device", "va"]
    else []
  base ++ hw ++ ["-c:v", encoder, "-frames:v", "10", "-f", "null", "-"]

/-- `gpu_detector::test_encoder` result (gpu_detector.rs:301-332).  The
returned value is exactly `result.status.success()`; when the command itself
cannot run (`output = none`) the test fails.  The source also computes
`stderr.contains("frame=")`, but only inside a `println!` — the substring
check never influences the returned boolean. -/
def test_encoder (encoder : String) (output : Option ProcOutput) : Bool :=
  match encoder, output with
  | _, some result => result.exitSuccess
  | _, none => false

/-- GOP interval for streaming: `fps * 2`, defaulting to 60 (encoder.rs:90). -/
def keyframeInterval (fps : Option Int) : Int :=
  ((fps.map (fun f => f * 2)).getD 60)

/-- `EncoderSelector::build_gpu_config_streaming` (encoder.rs:85-181). -/
def build_gpu_config_streaming (self : EncoderSelector) (encoder : String)
    (fps : Option Int) : EncoderConfig :=
  let g := toString (keyframeInterval fps)
  let fkf := "expr:gte(t,n_forced*2)"
  let args :=
    if encoder == "h264_nvenc" || encoder == "hevc_nvenc" then
      ["-c:v", encoder, "-preset", "p1", "-tune", "ll", "-zerolatency", "1",
       "-rc", "cbr", "-b:v", "4M", "-maxrate", "4M", "-bufsize", "2M",
       "-g", g, "-force_key_frames", fkf, "-bf", "0"]
    else if encoder == "h264_qsv" || encoder == "hevc_qsv" then
      ["-init_hw_device", "qsv=hw", "-filter_hw_device", "hw",
       "-c:v", encoder, "-preset", "veryfast",
       "-global_quality", toString self.settings.quality,
       "-look_ahead", "0", "-b:v", "4M", "-maxrate", "4M", "-bufsize", "2M",
       "-g", g, "-sc_threshold", "0"]
    else if encoder == "h264_amf" || encoder == "hevc_amf" then
      ["-c:v", encoder, "-quality", "speed", "-rc", "cbr",
       "-b:v", "4M", "-maxrate", "4M", "-bufsize", "2M",
       "-g", g, "-force_key_frames", fkf]
    else if encoder == "h264_vaapi" || encoder == "hevc_vaapi" then
      ["-init_hw_device", "vaapi=va:/dev/dri/renderD128", "-filter_hw_device", "va",
       "-c:v", encoder, "-qp", toString self.settings.quality, "-quality", "1",
       "-b:v", "4M", "-maxrate", "4M", "-g", g, "-force_key_frames", fkf]
    else if encoder == "h264_videotoolbox" || encoder == "hevc_videotoolbox" then
      ["-c:v", encoder, "-b:v", "4M", "-maxrate", "4M", "-bufsize", "2M",
       "-realtime", "1", "-g", g, "-force_key_frames", fkf]
    else
      ["-c:v", encoder, "-b:v", "4M", "-g", g, "-force_key_frames", fkf]
  { codec := encoder, args := args, isGpu := true }

/-- `EncoderSelector::build_cpu_config_streaming` (encoder.rs:183-205). -/
def build_cpu_config_streaming (self : EncoderSelector) (fps : Option Int) :
    EncoderConfig :=
  let g := toString (keyframeInterval fps)
  { codec := self.settings.cpuEncoder,
    args := ["-c:v", self.settings.cpuEncoder, "-preset", self.settings.preset,
             "-tune", "zerolatency", "-g", g, "-keyint_min", g,
             "-sc_threshold", "0", "-force_key_frames", "expr:gte(t,n_forced*2)"],
    isGpu := false }

/-- `EncoderSelector::build_gpu_config_recording` (encoder.rs:207-288). -/
def build_gpu_config_recording (self : EncoderSelector) (encoder : String) :
    EncoderConfig :=
  let fkf := "expr:gte(t,n_forced*2)"
  let args :=
    if encoder == "h264_nvenc" || encoder == "hevc_nvenc" then
      ["-c:v", encoder, "-preset", "p4", "-rc", "vbr",
       "-cq", toString self.settings.quality,
       "-b:v", "8M", "-maxrate", "10M", "-bufsize", "8M",
       "-g", "120", "-force_key_frames", fkf]
    else if encoder == "h264_qsv" || encoder == "hevc_qsv" then
      ["-init_hw_device", "qsv=hw", "-filter_hw_device", "hw",
       "-c:v", encoder, "-preset", "medium",
       "-global_quality", toString self.settings.quality,
       "-b:v", "8M", "-maxrate", "10M", "-g", "120", "-sc_threshold", "0"]
    else if encoder == "h264_amf" || encoder == "hevc_amf" then
      ["-c:v", encoder, "-quality", "balanced", "-rc", "vbr_latency",
       "-b:v", "8M", "-maxrate", "10M", "-g", "120", "-force_key_frames", fkf]
    else if encoder == "h264_vaapi" || encoder == "hevc_vaapi" then
      ["-init_hw_device", "vaapi=va:/dev/dri/renderD128", "-filter_hw_device", "va",
       "-c:v", encoder, "-qp", toString self.settings.quality, "-quality", "2",
       "-b:v", "8M", "-maxrate", "10M", "-g", "120", "-force_key_frames", fkf]
    else if encoder == "h264_videotoolbox" || encoder == "hevc_videotoolbox" then
      ["-c:v", encoder, "-b:v", "8M", "-maxrate", "10M", "-g", "120",
       "-force_key_frames", fkf]
    else
      ["-c:v", encoder, "-b:v", "8M", "-g", "120", "-force_key_frames", fkf]
  { codec := encoder, args := args, isGpu := true }

/-- `EncoderSelector::build_cpu_config_recording` (encoder.rs:290-301). -/
def build_cpu_config_recording (self : EncoderSelector) : EncoderConfig :=
  { codec := self.settings.cpuEncoder,
    args := ["-c:v", self.settings.cpuEncoder, "-preset", self.settings.preset],
    isGpu := false }

/-- `EncoderSelector::select_encoder_for_streaming` (encoder.rs:24-58).
`testOutput` is the captured output of the functional-test subprocess run in
Auto mode.  In `GpuOnly` mode a missing `gpu_encoder` hits
`.expect("GPU encoder must be set for GpuOnly mode")`: a panic, not an `Err`
— the function's Rust return type is plain `EncoderConfig`. -/
def select_encoder_for_streaming (self : EncoderSelector) (fps : Option Int)
    (testOutput : Option ProcOutput) : Outcome EncoderConfig :=
  if self.settings.encoderMode == "Auto" then
    match self.settings.gpuEncoder with
    | some gpuEnc =>
        if self.capabilities.availableEncoders.contains gpuEnc then
          if test_encoder gpuEnc testOutput then
            .ok (build_gpu_config_streaming self gpuEnc fps)
          else .ok (build_cpu_config_streaming self fps)
        else .ok (build_cpu_config_streaming self fps)
    | none => .ok (build_cpu_config_streaming self fps)
  else if self.settings.encoderMode == "GpuOnly" then
    match self.settings.gpuEncoder with
    | some gpuEnc => .ok (build_gpu_config_streaming self gpuEnc fps)
    | none => .panic "GPU encoder must be set for GpuOnly mode"
  else if self.settings.encoderMode == "CpuOnly" then
    .ok (build_cpu_config_streaming self fps)
  else .ok (build_cpu_config_streaming self fps)

/-- `EncoderSelector::select_encoder_for_recording` (encoder.rs:60-83). -/
def select_encoder_for_recording (self : EncoderSelector)
    (testOutput : Option ProcOutput) : Outcome EncoderConfig :=
  if self.settings.encoderMode == "Auto" then
    match self.settings.gpuEncoder with
    | some gpuEnc =>
        if self.capabilities.availableEncoders.contains gpuEnc then
          if test_encoder gpuEnc testOutput then
            .ok (build_gpu_config_recording self gpuEnc)
          else .ok (build_cpu_config_recording self)
        else .ok (build_cpu_config_recording self)
    | none => .ok (build_cpu_config_recording self)
  else if self.settings.encoderMode == "GpuOnly" then
    match self.settings.gpuEncoder with
    | some gpuEnc => .ok (build_gpu_config_recording self gpuEnc)
    | none => .panic "GPU encoder must be set for GpuOnly mode"
  else if self.settings.encoderMode == "CpuOnly" then
    .ok (build_cpu_config_recording self)
  else .ok (build_cpu_config_recording self)

/-! ## ONVIF SOAP client (onvif.rs)

Envelopes are modelled structurally: the `format!` template of
`build_soap_envelope` splices either the empty string or exactly one
`wsse:Security`/`UsernameToken` block into the header, so an envelope is a
body string plus an optional security header.  `renderEnvelope` reconstructs
the flat XML string.  The random nonce, the `Created` clock value and the
`base64(SHA1(nonce_raw ‖ created ‖ password))` digest are runtime inputs
supplied by `SecEnv` (the hash itself is outside the claims checked here). -/

structure SecEnv where
  nonceB64 : String
  created : String
  digestOf : String → String

/-- The `wsse:UsernameToken` contents produced by
`generate_security_header` (onvif.rs:159-181). -/
structure SecHeader where
  username : String
  passwordDigest : String
  nonce : String
  created : String

/-- `onvif::generate_security_header`. -/
def generate_security_header (env : SecEnv) (user pass : String) : SecHeader :=
  { username := user, passwordDigest := env.digestOf pass,
    nonce := env.nonceB64, created := env.created }

/-- A SOAP envelope: at most one security header, plus the body content. -/
structure SoapEnvelope where
  security : Option SecHeader
  body : String

/-- `onvif::build_soap_envelope` (onvif.rs:375-394): the security header is
generated iff the user name is non-empty. -/
def build_soap_envelope (env : SecEnv) (user pass bodyContent : String) :
    SoapEnvelope :=
  { security := if user = "" then none else some (generate_security_header env user pass),
    body := bodyContent }

/-- Flat XML of the `wsse:Security` block (the `format!` template of
`generate_security_header`). -/
def renderSecHeader (h : SecHeader) : String :=
  "<wsse:Security xmlns:wsse=\"http://docs.oasis-open.org/wss/2004/01/oasis-200401-wss-wssecurity-secext-1.0.xsd\" xmlns:wsu=\"http://docs.oasis-open.org/wss/2004/01/oasis-200401-wss-wssecurity-utility-1.0.xsd\">\n      <wsse:UsernameToken wsu:Id=\"UsernameToken-1\">\n        <wsse:Username>" ++
  h.username ++ "</wsse:Username>\n        <wsse:Password Type=\"http://docs.oasis-open.org/wss/2004/01/oasis-200401-wss-username-token-profile-1.0#PasswordDigest\">" ++
  h.passwordDigest ++ "</wsse:Password>\n        <wsse:Nonce EncodingType=\"http://docs.oasis-open.org/wss/2004/01/oasis-200401-wss-soap-message-security-1.0#Base64Binary\">" ++
  h.nonce ++ "</wsse:Nonce>\n        <wsu:Created>" ++ h.created ++
  "</wsu:Created>\n      </wsse:UsernameToken>\n    </wsse:Security>"

/-- Flat XML of a whole envelope (the `format!` template of
`build_soap_envelope`). -/
def renderEnvelope (e : SoapEnvelope) : String :=
  "<?xml version=\"1.0\" encoding=\"UTF-8\"?>\n<s:Envelope xmlns:s=\"http://www.w3.org/2003/05/soap-envelope\">\n  <s:Header>\n    " ++
  ((e.security.map renderSecHeader).getD "") ++
  "\n  </s:Header>\n  <s:Body xmlns:xsi=\"http://www.w3.org/2001/XMLSchema-instance\" xmlns:xsd=\"http://www.w3.org/2001/XMLSchema\">\n    " ++
  e.body ++ "\n  </s:Body>\n</s:Envelope>"

/-- Structured (year, month, day, hour, minute, second) camera time
(onvif.rs `ONVIFDateTime`). -/
structure ONVIFDateTime where
  year : Int
  month : Int
  day : Int
  hour : Int
  minute : Int
  second : Int
  deriving DecidableEq, Repr

/-- Body of the `GetProfiles` request (onvif.rs:195). -/
def getProfilesBody : String :=
  "<GetProfiles xmlns=\"http://www.onvif.org/ver10/media/wsdl\"/>"

/-- Body of the `GetStreamUri` request (onvif.rs:209-220). -/
def getStreamUriBody (profileToken : String) : String :=
  "<GetStreamUri xmlns=\"http://www.onvif.org/ver10/media/wsdl\">\n      <StreamSetup>\n        <Stream xmlns=\"http://www.onvif.org/ver10/schema\">RTP-Unicast</Stream>\n        <Transport xmlns=\"http://www.onvif.org/ver10/schema\">\n          <Protocol>RTSP</Protocol>\n        </Transport>\n      </StreamSetup>\n      <ProfileToken>" ++
  profileToken ++ "</ProfileToken>\n    </GetStreamUri>"

/-- Body of the `GetCapabilities(Category=PTZ)` request (onvif.rs:267-269). -/
def getCapabilitiesBody : String :=
  "<GetCapabilities xmlns=\"http://www.onvif.org/ver10/device/wsdl\">\n        <Category>PTZ</Category>\n    </GetCapabilities>"

/-- Body of the `GetSystemDateAndTime` request (onvif.rs:509). -/
def getSystemDateAndTimeBody : String :=
  "<GetSystemDateAndTime xmlns=\"http://www.onvif.org/ver10/device/wsdl\"/>"

/-- Body of the `SetSystemDateAndTime` request (onvif.rs:588-610). -/
def setSystemDateAndTimeBody (dt : ONVIFDateTime) : String :=
  "<SetSystemDateAndTime xmlns=\"http://www.onvif.org/ver10/device/wsdl\">\n      <DateTimeType>Manual</DateTimeType>\n      <DaylightSavings>false</DaylightSavings>\n      <TimeZone>\n        <TZ xmlns=\"http://www.onvif.org/ver10/schema\">UTC</TZ>\n      </TimeZone>\n      <UTCDateTime>\n        <Date xmlns=\"http://www.onvif.org/ver10/schema\">\n          <Year>" ++
  toString dt.year ++ "</Year>\n          <Month>" ++ toString dt.month ++
  "</Month>\n          <Day>" ++ toString dt.day ++
  "</Day>\n        </Date>\n        <Time xmlns=\"http://www.onvif.org/ver10/schema\">\n          <Hour>" ++
  toString dt.hour ++ "</Hour>\n          <Minute>" ++ toString dt.minute ++
  "</Minute>\n          <Second>" ++ toString dt.second ++
  "</Second>\n        </Time>\n      </UTCDateTime>\n    </SetSystemDateAndTime>"

/-- Envelope of the `GetProfiles` call inside `get_onvif_stream_url`
(onvif.rs:183-196): credentials from the camera row
(`unwrap_or_default`). -/
def get_profiles_request (env : SecEnv) (cam : Camera) : SoapEnvelope :=
  build_soap_envelope env (cam.user.getD "") (cam.pass.getD "") getProfilesBody

/-- Envelope of the `GetStreamUri` call inside `get_onvif_stream_url`
(onvif.rs:209-221). -/
def get_stream_uri_request (env : SecEnv) (cam : Camera) (token : String) :
    SoapEnvelope :=
  build_soap_envelope env (cam.user.getD "") (cam.pass.getD "")
    (getStreamUriBody token)

/-- Envelope of the `GetCapabilities` call inside `get_ptz_service_url`
(onvif.rs:255-270). -/
def get_capabilities_request (env : SecEnv) (cam : Camera) : SoapEnvelope :=
  build_soap_envelope env (cam.user.getD "") (cam.pass.getD "")
    getCapabilitiesBody

/-- Envelope of the `GetSystemDateAndTime` call (onvif.rs:499-524): the
source passes the literal empty strings, never the camera credentials
(`build_soap_envelope("", "", body)`). -/
def get_system_date_time_request (env : SecEnv) (_cam : Camera) : SoapEnvelope :=
  build_soap_envelope env "" "" getSystemDateAndTimeBody

/-- Envelope of the `SetSystemDateAndTime` call (onvif.rs:577-619). -/
def set_system_date_time_request (env : SecEnv) (cam : Camera)
    (dt : ONVIFDateTime) : SoapEnvelope :=
  build_soap_envelope env (cam.user.getD "") (cam.pass.getD "")
    (setSystemDateAndTimeBody dt)

/-! ## Time synchronization verification message (commands.rs:212-307)

Camera and server times are modelled as integer seconds; `chrono`
`signed_duration_since(..).num_seconds()` becomes plain integer
subtraction.  The four `format!` branches become a structured
`SyncMessage`, with `renderSyncMessage` reconstructing the exact strings. -/

inductive SyncMessage
  | verified (adjustedBy : Int)
  | mayNotBeSet (beforeDiff : Int) (afterDiff : Int)
  | alreadySynchronized (diff : Int)
  | commandSentUnverified (diff : Int)
  deriving DecidableEq, Repr

/-- The exact strings of commands.rs:276-289. -/
def renderSyncMessage : SyncMessage → String
  | .verified d =>
      "Camera time synchronized successfully (adjusted by " ++ toString d ++
      "s, verified)"
  | .mayNotBeSet b a =>
      "Camera time may not have been set correctly (before diff: " ++
      toString b ++ "s, after diff: " ++ toString a ++ "s)"
  | .alreadySynchronized d =>
      "Camera time is already synchronized (difference: " ++ toString d ++ "s)"
  | .commandSentUnverified d =>
      "Camera time command sent (adjusted by " ++ toString d ++
      "s, verification unavailable)"

/-- Classifier: is the message the already-synchronized one? -/
def SyncMessage.isAlreadySynced : SyncMessage → Bool
  | .alreadySynchronized _ => true
  | _ => false

/-- Classifier: is the message the verified one? -/
def SyncMessage.isVerified : SyncMessage → Bool
  | .verified _ => true
  | _ => false

/-- Classifier: is the message one of the two unverified outcomes? -/
def SyncMessage.isUnverified : SyncMessage → Bool
  | .mayNotBeSet _ _ => true
  | .commandSentUnverified _ => true
  | _ => false

/-- The message selection of `sync_camera_time` (commands.rs:276-289):
`diffSeconds` is the initial camera-vs-server delta; `finalDiff` is
`Utc::now() - after` when the post-sync re-read succeeded, `none` when it
failed.  The re-read branch is checked FIRST; the under-2-seconds test is
reached only when the re-read is unavailable. -/
def sync_message (diffSeconds : Int) (finalDiff : Option Int) : SyncMessage :=
  match finalDiff with
  | some fd =>
      if fd.natAbs < 5 then .verified diffSeconds
      else .mayNotBeSet diffSeconds fd
  | none =>
      if diffSeconds.natAbs < 2 then .alreadySynchronized diffSeconds
      else .commandSentUnverified diffSeconds

/-- End-to-end message of one `sync_camera_time` run: `beforeTime` is the
pre-sync camera clock, `serverTime` the server clock sampled before the set,
`verifyNow` the server clock sampled at verification, `afterTime` the
re-read camera clock (all in seconds). -/
def sync_camera_time_message (beforeTime serverTime verifyNow : Int)
    (afterTime : Option Int) : SyncMessage :=
  sync_message (serverTime - beforeTime)
    (afterTime.map (fun a => verifyNow - a))

/-! ## WS-Discovery probe-reply scope parsing (onvif.rs:105-155)

The `urlencoding::decode` of each scope token is modelled byte-for-byte for
ASCII percent-escapes (`%XX` with `XX < 0x80`); multi-byte UTF-8 escapes are
outside the claims checked here.  An invalid escape leaves the `%` in place,
and a scope that decodes badly falls back to the raw scope, exactly like
`unwrap_or(Cow::Borrowed(scope))`. -/

/-- Value of one hexadecimal digit. -/
def hexDigitVal (c : Char) : Option Nat :=
  if 48 ≤ c.toNat ∧ c.toNat ≤ 57 then some (c.toNat - 48)
  else if 97 ≤ c.toNat ∧ c.toNat ≤ 102 then some (c.toNat - 97 + 10)
  else if 65 ≤ c.toNat ∧ c.toNat ≤ 70 then some (c.toNat - 65 + 10)
  else none

/-- Percent-decoding over the character list. -/
def pctDecodeChars : List Char → List Char
  | [] => []
  | '%' :: a :: b :: rest =>
      match hexDigitVal a, hexDigitVal b with
      | some hi, some lo => Char.ofNat (16 * hi + lo) :: pctDecodeChars rest
      | _, _ => '%' :: pctDecodeChars (a :: b :: rest)
  | c :: rest => c :: pctDecodeChars rest

/-- `urlencoding::decode(..).unwrap_or(scope)`. -/
def urldecode (s : String) : String :=
  String.mk (pctDecodeChars s.data)

/-- The loop body of the scope scan (onvif.rs:123-132), threading
(name, manufacturer, hardware). -/
def scanScopeStep (acc : String × String × String) (scope : String) :
    String × String × String :=
  let decoded := urldecode scope
  if containsSubstr decoded "/name/" then
    (lastSplitOn decoded "/name/", acc.2.1, acc.2.2)
  else if containsSubstr decoded "/hardware/" then
    (acc.1, acc.2.1, lastSplitOn decoded "/hardware/")
  else acc

/-- The whole scope scan, from the initial values
`name = "Unknown Camera"`, `manufacturer = "Unknown"`, `hardware = ""`. -/
def scanScopes (scopesText : String) : String × String × String :=
  (splitWs scopesText).foldl scanScopeStep ("Unknown Camera", "Unknown", "")

/-- Name and manufacturer extracted from the `Scopes` text by
`parse_probe_match` (onvif.rs:119-136): after the scan, the hardware
fragment is promoted to manufacturer when `manufacturer` still reads
`"Unknown"` and hardware is non-empty. -/
def parse_probe_match_scopes (scopesText : String) : String × String :=
  let scanned := scanScopes scopesText
  let name := scanned.1
  let manufacturer := scanned.2.1
  let hardware := scanned.2.2
  let manufacturer2 :=
    if manufacturer = "Unknown" ∧ hardware ≠ "" then hardware else manufacturer
  (name, manufacturer2)

/-! ## Cron validation and schedule insertion (commands.rs:446-575)

`tokio_cron_scheduler::Job::new_async_tz` is third-party code; it is
abstracted as a boolean parser `parseTz tz expr` deciding whether `expr`
parses as a cron expression under the IANA timezone `tz`.  The source pins
`tz = Asia/Tokyo`. -/

/-- Rust `expr.split_whitespace().count()`. -/
def countFields (s : String) : Nat :=
  (splitWs s).length

/-- The 5-field → 6-field normalization of `validate_cron_expression`
(commands.rs:448-452). -/
def normalizeCron (expr : String) : String :=
  if countFields expr = 5 then "0 " ++ expr else expr

/-- `commands::validate_cron_expression` (commands.rs:446-462). -/
def validate_cron_expression (parseTz : String → String → Bool)
    (expr : String) : Except String String :=
  let normalizedExpr := normalizeCron expr
  if parseTz "Asia/Tokyo" normalizedExpr then .ok normalizedExpr
  else .error "Invalid cron expression"

/-- One row of the `recording_schedules` table. -/
structure ScheduleRow where
  schedId : Nat
  cameraId : Int
  name : String
  cronExpression : String
  durationMinutes : Int
  fps : Option Int
  isEnabled : Bool
  deriving DecidableEq, Repr

/-- `models::NewRecordingSchedule`. -/
structure NewRecordingSchedule where
  cameraId : Int
  name : String
  cronExpression : String
  durationMinutes : Int
  fps : Option Int
  isEnabled : Bool
  deriving DecidableEq, Repr

/-- `commands::add_recording_schedule` (commands.rs:502-575): validate and
normalize the cron expression, then insert the row with the normalized
expression; on a validation error nothing is inserted.  (The follow-up
scheduler registration does not touch the table and is omitted.) -/
def add_recording_schedule (parseTz : String → String → Bool)
    (schedule : NewRecordingSchedule) (schedules : List ScheduleRow)
    (nextId : Nat) : Except String ScheduleRow × List ScheduleRow :=
  match validate_cron_expression parseTz schedule.cronExpression with
  | .error e => (.error e, schedules)
  | .ok normalizedCron =>
      let row : ScheduleRow :=
        { schedId := nextId, cameraId := schedule.cameraId,
          name := schedule.name, cronExpression := normalizedCron,
          durationMinutes := schedule.durationMinutes, fps := schedule.fps,
          isEnabled := schedule.isEnabled }
      (.ok row, schedules ++ [row])

/-- Cron expression of the inserted row, when one was inserted. -/
def storedCron (r : Except String ScheduleRow × List ScheduleRow) :
    Option String :=
  match r.1 with
  | .ok row => some row.cronExpression
  | .error _ => none

/-! ## Concrete values used by witnesses and counterexamples -/

/-- Initial state: one camera, nothing running, empty tables. -/
def initSt : St :=
  { cameras := [1], processes := [], recProcesses := [], recordings := [],
    streamDirs := [], nextRecId := 0 }

/-- Fully successful `start_recording` environment. -/
def recEnvOk : StartRecEnv :=
  { dbOk := true, rtspOk := true, encoderOk := true, spawn := some 100,
    insertOk := true }

/-- `stop_recording` environment whose remux step fails. -/
def stopRecEnvRemuxFail : StopRecEnv :=
  { dbOk := true, tempExists := true, remuxOk := false, thumbOk := true,
    timestamp := "20260101_000000" }

/-- `stop_recording` environment where everything succeeds. -/
def stopRecEnvOk : StopRecEnv :=
  { dbOk := true, tempExists := true, remuxOk := true, thumbOk := true,
    timestamp := "20260101_000000" }

/-- Fully successful `start_stream` environment. -/
def streamEnvOk : StreamEnv :=
  { removeDirOk := true, createDirOk := true, rtspOk := true,
    encoderOk := true, spawn := some 7 }

/-- State reached by: successful `start_recording(1)`; `stop_recording(1)`
whose remux fails (row left `is_finished = 0`); successful
`start_recording(1)` again. -/
def c1TraceFinal : St :=
  runOps initSt
    [.startRecOp recEnvOk 1, .stopRecOp stopRecEnvRemuxFail 1,
     .startRecOp recEnvOk 1]

/-- Environment in which every external step fails. -/
def streamEnvFail : StreamEnv :=
  { removeDirOk := false, createDirOk := false, rtspOk := false,
    encoderOk := false, spawn := none }

/-- State after a successful `start_stream(1)` from `initSt`. -/
def c2St1 : St :=
  { cameras := [1], processes := [(1, 7)], recProcesses := [],
    recordings := [], streamDirs := [1], nextRecId := 0 }

/-- State with a live stream for camera 1, a dangling `is_finished = 0` row
for camera 1, and no recording child handle. -/
def c3St : St :=
  { cameras := [1], processes := [(1, 5)], recProcesses := [],
    recordings := [{ recId := 0, cameraId := 1, filename := "temp_rec_1.ts",
                     isFinished := false }],
    streamDirs := [1], nextRecId := 1 }

/-- A probe-reply `Scopes` attribute carrying both a name and a hardware
fragment. -/
def c9Scopes : String :=
  "onvif://www.onvif.org/name/Cam1 onvif://www.onvif.org/hardware/HW1"

/-- Encoder settings: `GpuOnly` with `gpu_encoder` null. -/
def gpuOnlyNullSettings : EncoderSettings :=
  { id := 1, encoderMode := "GpuOnly", gpuEncoder := none,
    cpuEncoder := "libx264", preset := "ultrafast", quality := 23 }

/-- Detected capabilities advertising NVENC. -/
def nvCaps : GpuCapabilities :=
  { availableEncoders := ["h264_nvenc"], preferredEncoder := some "h264_nvenc",
    gpuType := "NVIDIA", gpuName := some "GeForce" }

/-- Encoder settings: `Auto` with NVENC configured. -/
def autoNvSettings : EncoderSettings :=
  { id := 1, encoderMode := "Auto", gpuEncoder := some "h264_nvenc",
    cpuEncoder := "libx264", preset := "ultrafast", quality := 23 }

/-- Functional-test output: clean exit, but no `frame=` in stderr. -/
def zeroExitNoFrame : ProcOutput :=
  { exitSuccess := true, stderr := "speed=1.01x" }

/-- The Auto-mode NVENC selector used in encoder witnesses. -/
def autoNvSelector : EncoderSelector :=
  { capabilities := nvCaps, settings := autoNvSettings }

/-- Camera with configured credentials. -/
def camAdmin : Camera :=
  { id := 1, user := some "admin", pass := some "pw" }

/-- Schedule input with the given cron expression. -/
def mkSched (e : String) : NewRecordingSchedule :=
  { cameraId := 1, name := "nightly", cronExpression := e,
    durationMinutes := 10, fps := none, isEnabled := true }

/-- A parser stub standing in for the cron library: accepts exactly the
6-field expressions. -/
def sixFieldAccept : String → String → Bool :=
  fun _tz s => decide (countFields s = 6)

/-- A security environment with fixed nonce, clock and digest values. -/
def secEnv0 : SecEnv :=
  { nonceB64 := "bm9uY2U=", created := "2024-01-01T00:00:00.000Z",
    digestOf := fun _ => "ZGlnZXN0" }

/-! # Theorems -/

/-! ## Association-list and recordings-table lemmas -/

theorem bool_eq_false {b : Bool} (h : ¬ b = true) : b = false := by
  cases b
  · rfl
  · exact absurd rfl h

theorem lookupA_removeA_self (k : Int) (l : List (Int × Nat)) :
    lookupA k (removeA k l) = none := by
  induction l with
  | nil => rfl
  | cons p rest ih =>
      by_cases h : p.1 = k
      · simpa [removeA, List.filter_cons, h] using ih
      · simpa [removeA, List.filter_cons, h, lookupA] using ih

theorem removeA_eq_self (k : Int) (l : List (Int × Nat))
    (h : lookupA k l = none) : removeA k l = l := by
  induction l with
  | nil => rfl
  | cons p rest ih =>
      by_cases hp : p.1 = k
      · simp [lookupA, hp] at h
      · simp only [lookupA, hp, if_neg] at h
        simp [removeA, List.filter_cons, hp] at ih ⊢
        exact ih h

theorem lookupA_append (k : Int) (l1 l2 : List (Int × Nat)) :
    lookupA k (l1 ++ l2)
      = match lookupA k l1 with
        | some v => some v
        | none => lookupA k l2 := by
  induction l1 with
  | nil => simp [lookupA]
  | cons p rest ih =>
      by_cases hp : p.1 = k <;> simp [lookupA, hp, ih]

theorem lookupA_insertA_self (k : Int) (v : Nat) (l : List (Int × Nat)) :
    lookupA k (insertA k v l) = some v := by
  unfold insertA
  rw [lookupA_append, lookupA_removeA_self]
  simp [lookupA]

theorem lookupA_removeA_ne (j k : Int) (l : List (Int × Nat)) (h : j ≠ k) :
    lookupA k (removeA j l) = lookupA k l := by
  induction l with
  | nil => rfl
  | cons p rest ih =>
      by_cases hp : p.1 = j
      · have hk : p.1 ≠ k := by rw [hp]; exact h
        rw [show removeA j (p :: rest) = removeA j rest by
              simp [removeA, List.filter_cons, hp]]
        rw [ih]
        simp [lookupA, hk]
      · rw [show removeA j (p :: rest) = p :: removeA j rest by
              simp [removeA, List.filter_cons, hp]]
        by_cases hk : p.1 = k
        · simp [lookupA, hk]
        · simp [lookupA, hk, ih]

theorem lookupA_insertA_ne (j k : Int) (v : Nat) (l : List (Int × Nat))
    (h : j ≠ k) : lookupA k (insertA j v l) = lookupA k l := by
  unfold insertA
  rw [lookupA_append]
  rw [lookupA_removeA_ne j k l h]
  cases hl : lookupA k l with
  | some w => rfl
  | none => simp [lookupA, h]

theorem countKey_append (k : Int) (l1 l2 : List (Int × Nat)) :
    countKey k (l1 ++ l2) = countKey k l1 + countKey k l2 := by
  simp [countKey, List.filter_append]

theorem countKey_removeA_self (k : Int) (l : List (Int × Nat)) :
    countKey k (removeA k l) = 0 := by
  induction l with
  | nil => rfl
  | cons p rest ih =>
      by_cases hp : p.1 = k <;>
        simpa [removeA, countKey, List.filter_cons, hp] using ih

theorem countKey_insertA_self (k : Int) (v : Nat) (l : List (Int × Nat)) :
    countKey k (insertA k v l) = 1 := by
  unfold insertA
  rw [countKey_append, countKey_removeA_self]
  simp [countKey]

theorem countKey_eq_zero_of_not_mem (k : Int) (l : List (Int × Nat))
    (h : k ∉ l.map Prod.fst) : countKey k l = 0 := by
  induction l with
  | nil => rfl
  | cons p rest ih =>
      simp only [List.map_cons, List.mem_cons, not_or] at h
      have : p.1 ≠ k := fun hh => h.1 hh.symm
      simpa [countKey, List.filter_cons, this] using ih h.2

theorem countKey_eq_one_of_lookup_nodup (k : Int) (l : List (Int × Nat))
    (hnd : (l.map Prod.fst).Nodup) (h : (lookupA k l).isSome = true) :
    countKey k l = 1 := by
  induction l with
  | nil => simp [lookupA] at h
  | cons p rest ih =>
      simp only [List.map_cons, List.nodup_cons] at hnd
      by_cases hp : p.1 = k
      · have h0 : countKey k rest = 0 := by
          apply countKey_eq_zero_of_not_mem
          rw [← hp]; exact hnd.1
        have hcons : countKey k (p :: rest) = countKey k rest + 1 := by
          simp [countKey, List.filter_cons, hp]
        rw [hcons, h0]
      · simp only [lookupA, hp, if_neg] at h
        simpa [countKey, List.filter_cons, hp] using ih hnd.2 h

theorem countUnfinished_append (id : Int) (l1 l2 : List RecRow) :
    countUnfinished id (l1 ++ l2)
      = countUnfinished id l1 + countUnfinished id l2 := by
  simp [countUnfinished, unfinishedFor, List.filter_append]

theorem countUnfinished_singleton_hit (id : Int) (row : RecRow)
    (h1 : row.cameraId = id) (h2 : row.isFinished = false) :
    countUnfinished id [row] = 1 := by
  simp [countUnfinished, unfinishedFor, List.filter_cons, h1, h2]

theorem countUnfinished_singleton_miss (id : Int) (row : RecRow)
    (h : row.cameraId ≠ id) : countUnfinished id [row] = 0 := by
  simp [countUnfinished, unfinishedFor, List.filter_cons, h]

theorem countUnfinished_stopfilter_self (id : Int) (l : List RecRow) :
    countUnfinished id
      (l.filter (fun r => !(r.cameraId == id && !r.isFinished))) = 0 := by
  induction l with
  | nil => rfl
  | cons r rest ih =>
      by_cases hc : r.cameraId = id
      · by_cases hf : r.isFinished <;>
          simpa [List.filter_cons, hc, hf, countUnfinished, unfinishedFor]
            using ih
      · simpa [List.filter_cons, hc, countUnfinished, unfinishedFor] using ih

theorem countUnfinished_stopfilter_self2 (id : Int) (l : List RecRow) :
    countUnfinished id
      (l.filter (fun r => (!(r.cameraId == id) || r.isFinished))) = 0 := by
  induction l with
  | nil => rfl
  | cons r rest ih =>
      by_cases hc : r.cameraId = id
      · by_cases hf : r.isFinished <;>
          simpa [List.filter_cons, hc, hf, countUnfinished, unfinishedFor]
            using ih
      · simpa [List.filter_cons, hc, countUnfinished, unfinishedFor] using ih

theorem countUnfinished_cons (id : Int) (r : RecRow) (rest : List RecRow) :
    countUnfinished id (r :: rest)
      = countUnfinished id rest
        + (if (r.cameraId == id && !r.isFinished) = true then 1 else 0) := by
  by_cases hm : (r.cameraId == id && !r.isFinished) = true <;>
    simp [countUnfinished, unfinishedFor, List.filter_cons, hm, Nat.add_comm]

theorem countUnfinished_stopfilter_ne (id j : Int) (l : List RecRow)
    (h : j ≠ id) :
    countUnfinished id
        (l.filter (fun r => !(r.cameraId == j && !r.isFinished)))
      = countUnfinished id l := by
  induction l with
  | nil => rfl
  | cons r rest ih =>
      rw [List.filter_cons]
      by_cases hkeep : (!(r.cameraId == j && !r.isFinished)) = true
      · rw [if_pos hkeep, countUnfinished_cons, countUnfinished_cons, ih]
      · rw [if_neg hkeep, ih, countUnfinished_cons]
        have hX : (r.cameraId == j && !r.isFinished) = true := by
          rcases Bool.eq_false_or_eq_true (r.cameraId == j && !r.isFinished)
            with hb | hb
          · exact hb
          · exact absurd (by rw [hb]; rfl) hkeep
        have hcj : r.cameraId = j := by
          simp only [Bool.and_eq_true, beq_iff_eq] at hX
          exact hX.1
        have hfalse : (r.cameraId == id) = false := by
          rw [hcj]
          exact beq_eq_false_iff_ne.mpr h
        simp [hfalse]

theorem finishRow_eq_self_of_not_mem (recId : Nat) (n : String)
    (t : Option String) (l : List RecRow)
    (h : recId ∉ l.map RecRow.recId) : finishRow recId n t l = l := by
  induction l with
  | nil => rfl
  | cons r rest ih =>
      simp only [List.map_cons, List.mem_cons, not_or] at h
      have hne : (r.recId == recId) = false :=
        beq_eq_false_iff_ne.mpr (fun hh => h.1 hh.symm)
      simp only [finishRow, List.map_cons, hne, Bool.false_eq_true, if_false]
      have := ih h.2
      simp only [finishRow] at this
      rw [this]

theorem finishRow_cons (recId : Nat) (n : String) (t : Option String)
    (r : RecRow) (rest : List RecRow) :
    finishRow recId n t (r :: rest)
      = (if (r.recId == recId) = true then
           { r with isFinished := true, filename := n, thumbnail := t }
         else r) :: finishRow recId n t rest := rfl

theorem deleteRow_cons (recId : Nat) (r : RecRow) (rest : List RecRow) :
    deleteRow recId (r :: rest)
      = if (r.recId != recId) = true then r :: deleteRow recId rest
        else deleteRow recId rest := by
  simp [deleteRow, List.filter_cons]

theorem countUnfinished_finishRow_of_ne (id : Int) (n : String)
    (t : Option String) (row : RecRow) (l : List RecRow)
    (hnd : (l.map RecRow.recId).Nodup) (hmem : row ∈ l)
    (hne : row.cameraId ≠ id) :
    countUnfinished id (finishRow row.recId n t l) = countUnfinished id l := by
  induction l with
  | nil => rfl
  | cons r rest ih =>
      simp only [List.map_cons, List.nodup_cons] at hnd
      rw [finishRow_cons]
      rcases List.mem_cons.mp hmem with hr | hr
      · -- the finalized row is the head
        have hbeq : (r.recId == row.recId) = true := by
          rw [hr]
          exact beq_self_eq_true _
        have hrest : finishRow row.recId n t rest = rest := by
          apply finishRow_eq_self_of_not_mem
          rw [hr]
          exact hnd.1
        rw [if_pos hbeq, hrest, countUnfinished_cons, countUnfinished_cons]
        have hcam : (r.cameraId == id) = false := by
          rw [← hr]; exact beq_eq_false_iff_ne.mpr hne
        simp [hcam]
      · -- the finalized row is in the tail
        have hrne : (r.recId == row.recId) = false := by
          apply beq_eq_false_iff_ne.mpr
          intro hh
          exact hnd.1 (hh ▸ List.mem_map_of_mem RecRow.recId hr)
        rw [hrne]
        simp only [Bool.false_eq_true, if_false]
        rw [countUnfinished_cons, countUnfinished_cons, ih hnd.2 hr]

theorem deleteRow_eq_self_of_not_mem (recId : Nat) (l : List RecRow)
    (h : recId ∉ l.map RecRow.recId) : deleteRow recId l = l := by
  apply List.filter_eq_self.mpr
  intro r hr
  simp only [bne_iff_ne, ne_eq]
  intro hh
  exact h (hh ▸ List.mem_map_of_mem RecRow.recId hr)

theorem countUnfinished_deleteRow_of_ne (id : Int) (row : RecRow)
    (l : List RecRow) (hnd : (l.map RecRow.recId).Nodup) (hmem : row ∈ l)
    (hne : row.cameraId ≠ id) :
    countUnfinished id (deleteRow row.recId l) = countUnfinished id l := by
  induction l with
  | nil => rfl
  | cons r rest ih =>
      simp only [List.map_cons, List.nodup_cons] at hnd
      rw [deleteRow_cons]
      rcases List.mem_cons.mp hmem with hr | hr
      · have hbeq : (r.recId != row.recId) = false := by
          rw [hr]; simp
        have hrest : deleteRow row.recId rest = rest := by
          apply deleteRow_eq_self_of_not_mem
          rw [hr]
          exact hnd.1
        rw [hbeq]
        simp only [Bool.false_eq_true, if_false]
        rw [hrest, countUnfinished_cons]
        have hcam : (r.cameraId == id) = false := by
          rw [← hr]; exact beq_eq_false_iff_ne.mpr hne
        simp [hcam]
      · have hrne : (r.recId != row.recId) = true := by
          simp only [bne_iff_ne, ne_eq]
          intro hh
          exact hnd.1 (hh ▸ List.mem_map_of_mem RecRow.recId hr)
        rw [if_pos hrne]
        rw [countUnfinished_cons, countUnfinished_cons, ih hnd.2 hr]

theorem lastUnfinished_spec (j : Int) (l : List RecRow) (row : RecRow)
    (h : lastUnfinished j l = some row) :
    row ∈ l ∧ row.cameraId = j ∧ row.isFinished = false := by
  have hm : row ∈ unfinishedFor j l := List.mem_of_mem_getLast? h
  have := List.mem_filter.mp hm
  refine ⟨this.1, ?_, ?_⟩
  · have := this.2
    simp only [Bool.and_eq_true, beq_iff_eq] at this
    exact this.1
  · have := this.2
    simp only [Bool.and_eq_true, Bool.not_eq_true'] at this
    exact this.2

theorem countUnfinished_eq_zero_iff (id : Int) (l : List RecRow) :
    countUnfinished id l = 0 ↔ unfinishedFor id l = [] := by
  simp [countUnfinished, List.length_eq_zero]

/-! ## C10: stop_recording on an idle camera -/

/-- C10: for every camera id with no entry in the recordings process map and
no `is_finished = 0` row in the recordings table, `stop_recording` returns
`Ok` (not a not-found error) and leaves the recordings table, both process
maps and the rest of the state unchanged, performing no side effect. -/
theorem c10_stop_recording_idle_noop (env : StopRecEnv) (id : Int) (st : St)
    (hdb : env.dbOk = true)
    (hproc : lookupA id st.recProcesses = none)
    (hrow : countUnfinished id st.recordings = 0) :
    stop_recording_internal env id st = (.ok (), st, []) := by
  have hrm : removeA id st.recProcesses = st.recProcesses :=
    removeA_eq_self id st.recProcesses hproc
  have hlast : lastUnfinished id st.recordings = none := by
    unfold lastUnfinished
    rw [(countUnfinished_eq_zero_iff id st.recordings).mp hrow]
    rfl
  unfold stop_recording_internal
  rw [hproc, hdb, hrm]
  simp [hlast]

/-- Witness for C10 at a concrete idle state. -/
theorem c10_stop_recording_idle_noop_witness :
    stop_recording_internal stopRecEnvOk 3 initSt = (.ok (), initSt, []) :=
  c10_stop_recording_idle_noop stopRecEnvOk 3 initSt rfl rfl rfl

/-! ## C3: stop_stream cascade -/

/-- C3 counterexample: with a dangling `is_finished = 0` row for camera 1
and NO recording child handle in the map, `stop_stream(1)` returns `Ok` but
the `is_finished = 0` row survives — refuting the claim that after
`stop_stream(id)` no such row remains whether or not a child handle was
present. -/
theorem c3_counterexample :
    resOk (stop_stream { recDbOk := true } 1 c3St).1 = true
    ∧ lookupA 1 c3St.recProcesses = none
    ∧ countUnfinished 1 c3St.recordings = 1
    ∧ countUnfinished 1 (stop_stream { recDbOk := true } 1 c3St).2.1.recordings
        = 1 := by
  decide

/-- C3 (amended): `stop_stream(id)` always returns `Ok`; it removes the
streaming child and kills it when present; when a recording child handle IS
present in the map (and the cleanup connection opens), it also removes that
handle and deletes every `is_finished = 0` row for the camera; when no
recording child handle is present, the recordings table is left untouched. -/
theorem c3_stop_stream_cascade_amended (env : StopStreamEnv) (id : Int)
    (st : St) :
    resOk (stop_stream env id st).1 = true
    ∧ lookupA id (stop_stream env id st).2.1.processes = none
    ∧ (∀ sp, lookupA id st.processes = some sp →
        Ev.killed sp ∈ (stop_stream env id st).2.2)
    ∧ ((lookupA id st.recProcesses).isSome = true → env.recDbOk = true →
        countUnfinished id (stop_stream env id st).2.1.recordings = 0
        ∧ lookupA id (stop_stream env id st).2.1.recProcesses = none)
    ∧ (lookupA id st.recProcesses = none →
        (stop_stream env id st).2.1.recordings = st.recordings) := by
  refine ⟨?_, ?_, ?_, ?_, ?_⟩
  · -- always Ok
    unfold stop_stream
    cases hrp : lookupA id st.recProcesses with
    | none => simp [hrp, resOk]
    | some pid =>
        by_cases hdb : env.recDbOk = true <;> simp [hrp, hdb, resOk]
  · -- streaming handle gone
    unfold stop_stream
    cases hrp : lookupA id st.recProcesses with
    | none => simp [hrp, lookupA_removeA_self]
    | some pid =>
        by_cases hdb : env.recDbOk = true <;>
          simp [hrp, hdb, lookupA_removeA_self]
  · -- streaming child killed when present
    intro sp hsp
    unfold stop_stream
    cases hrp : lookupA id st.recProcesses with
    | none => simp [hrp, hsp]
    | some pid =>
        by_cases hdb : env.recDbOk = true <;> simp [hrp, hsp, hdb]
  · -- cascade when a recording handle is present
    intro hrec hdb
    obtain ⟨pid, hpid⟩ := Option.isSome_iff_exists.mp hrec
    unfold stop_stream
    simp [hpid, hdb, countUnfinished_stopfilter_self,
          countUnfinished_stopfilter_self2, lookupA_removeA_self]
  · -- recordings untouched when no recording handle is present
    intro h0
    unfold stop_stream
    simp [h0]

/-! ## C2: start_stream idempotence -/


/-- C2: when `start_stream(c)` succeeds (with well-formed process-map keys),
it returns the relative playlist path `streams/{id}/index.m3u8`, a second
`start_stream(c)` — under any environment — returns the same path, leaves
the state exactly as it was and performs no side effect (no respawn, no
directory removal or recreation), and the streams map holds exactly one
entry for the camera. -/
theorem c2_start_stream_idempotent (env env2 : StreamEnv) (cam : Camera)
    (st : St) (p : String) (st1 : St) (evs : List Ev)
    (hwf : (st.processes.map Prod.fst).Nodup)
    (h : start_stream env cam st = (.ok p, st1, evs)) :
    p = streamPath cam.id
    ∧ start_stream env2 cam st1 = (.ok p, st1, [])
    ∧ countKey cam.id st1.processes = 1 := by
  by_cases hlk : (lookupA cam.id st.processes).isSome = true
  · -- the first call already found a running stream
    have hfirst : start_stream env cam st = (.ok (streamPath cam.id), st, []) := by
      unfold start_stream
      rw [if_pos hlk]
    rw [hfirst] at h
    simp only [Prod.mk.injEq, Except.ok.injEq] at h
    obtain ⟨hp, hst, hev⟩ := h
    refine ⟨hp.symm, ?_, ?_⟩
    · have hlk1 : (lookupA cam.id st1.processes).isSome = true := by
        rw [← hst]; exact hlk
      unfold start_stream
      rw [if_pos hlk1, hp]
    · rw [← hst]
      exact countKey_eq_one_of_lookup_nodup cam.id st.processes hwf hlk
  · -- the first call went through the full start path
    have hnone : lookupA cam.id st.processes = none := by
      cases hv : lookupA cam.id st.processes with
      | none => rfl
      | some v => rw [hv] at hlk; exact absurd rfl hlk
    unfold start_stream at h
    simp only [hnone, Option.isSome_none, Bool.false_eq_true, if_false] at h
    split at h
    · exact absurd h (by simp)
    · split at h
      · exact absurd h (by simp)
      · split at h
        · exact absurd h (by simp)
        · split at h
          · exact absurd h (by simp)
          · split at h
            · exact absurd h (by simp)
            · rename_i pid hspawn
              simp only [Prod.mk.injEq, Except.ok.injEq] at h
              obtain ⟨hp, hst, hev⟩ := h
              refine ⟨hp.symm, ?_, ?_⟩
              · have hsome : lookupA cam.id st1.processes = some pid := by
                  rw [← hst]
                  exact lookupA_insertA_self cam.id pid _
                have hlk1 : (lookupA cam.id st1.processes).isSome = true := by
                  rw [hsome]; rfl
                unfold start_stream
                rw [if_pos hlk1, hp]
              · rw [← hst]
                exact countKey_insertA_self cam.id pid _

/-- Witness for C2: a concrete successful first call from `initSt`; the
second call runs under an environment in which every external step fails,
yet still returns the same path with no state change and no side effect. -/
theorem c2_start_stream_idempotent_witness :
    "streams/1/index.m3u8" = streamPath 1
    ∧ start_stream streamEnvFail { id := 1, user := none, pass := none } c2St1
        = (.ok "streams/1/index.m3u8", c2St1, [])
    ∧ countKey 1 c2St1.processes = 1 :=
  c2_start_stream_idempotent streamEnvOk streamEnvFail
    { id := 1, user := none, pass := none } initSt
    "streams/1/index.m3u8" c2St1 [Ev.dirCreated 1, Ev.spawned 7]
    (by decide) (by rfl)

/-! ## C1: atomic start_recording -/

/-- State-preservation of `start_stream` on the recording side: no branch of
`start_stream` touches the recordings table or the recording process map. -/
theorem start_stream_preserves_recording_state (env : StreamEnv)
    (cam : Camera) (st : St) :
    (start_stream env cam st).2.1.recordings = st.recordings
    ∧ (start_stream env cam st).2.1.recProcesses = st.recProcesses := by
  unfold start_stream
  by_cases h1 : (lookupA cam.id st.processes).isSome = true
  · simp only [h1, if_true]
    exact ⟨by simp [resOk], by simp [resOk]⟩
  · simp only [bool_eq_false h1, Bool.false_eq_true, if_false]
    by_cases h2 : (st.streamDirs.contains cam.id && !env.removeDirOk) = true
    · simp only [h2, if_true]
      exact ⟨by simp [resOk], by simp [resOk]⟩
    · simp only [bool_eq_false h2, Bool.false_eq_true, if_false]
      by_cases h3 : (!env.createDirOk) = true
      · simp only [h3, if_true]
        exact ⟨by simp [resOk], by simp [resOk]⟩
      · simp only [bool_eq_false h3, Bool.false_eq_true, if_false]
        by_cases h4 : (!env.rtspOk) = true
        · simp only [h4, if_true]
          exact ⟨by simp [resOk], by simp [resOk]⟩
        · simp only [bool_eq_false h4, Bool.false_eq_true, if_false]
          by_cases h5 : (!env.encoderOk) = true
          · simp only [h5, if_true]
            exact ⟨by simp [resOk], by simp [resOk]⟩
          · simp only [bool_eq_false h5, Bool.false_eq_true, if_false]
            cases hsp : env.spawn with
            | none => exact ⟨by simp [resOk], by simp [resOk]⟩
            | some pid => exact ⟨by simp [resOk], by simp [resOk]⟩

/-- `stop_stream` for a different camera neither removes this camera's
recording handle nor changes its count of unfinished rows. -/
theorem stop_stream_other (e : StopStreamEnv) (j id : Int) (st : St)
    (hne : j ≠ id) :
    lookupA id (stop_stream e j st).2.1.recProcesses
        = lookupA id st.recProcesses
    ∧ countUnfinished id (stop_stream e j st).2.1.recordings
        = countUnfinished id st.recordings := by
  unfold stop_stream
  cases hrp : lookupA j st.recProcesses with
  | none => simp [hrp]
  | some pid =>
      by_cases hdb : e.recDbOk = true
      · simp only [hrp, hdb, if_true]
        exact ⟨lookupA_removeA_ne j id st.recProcesses hne,
               countUnfinished_stopfilter_ne id j st.recordings hne⟩
      · have hdbf : e.recDbOk = false := by simpa using hdb
        simp only [hrp, hdbf, Bool.false_eq_true, if_false]
        exact ⟨lookupA_removeA_ne j id st.recProcesses hne, trivial⟩

/-- `start_recording` for a different camera neither removes this camera's
recording handle nor changes its count of unfinished rows. -/
theorem start_recording_other (e : StartRecEnv) (j id : Int) (st : St)
    (hne : j ≠ id) :
    lookupA id (start_recording_internal e j st).2.1.recProcesses
        = lookupA id st.recProcesses
    ∧ countUnfinished id (start_recording_internal e j st).2.1.recordings
        = countUnfinished id st.recordings := by
  unfold start_recording_internal
  by_cases h1 : (lookupA j st.recProcesses).isSome = true
  · simp only [h1, if_true]
    exact ⟨by simp [resOk], by simp [resOk]⟩
  · simp only [bool_eq_false h1, Bool.false_eq_true, if_false]
    by_cases h2 : (!e.dbOk) = true
    · simp only [h2, if_true]
      exact ⟨by simp [resOk], by simp [resOk]⟩
    · simp only [bool_eq_false h2, Bool.false_eq_true, if_false]
      by_cases h3 : (!(st.cameras.contains j)) = true
      · simp only [h3, if_true]
        exact ⟨by simp [resOk], by simp [resOk]⟩
      · simp only [bool_eq_false h3, Bool.false_eq_true, if_false]
        by_cases h4 : (!e.rtspOk) = true
        · simp only [h4, if_true]
          exact ⟨by simp [resOk], by simp [resOk]⟩
        · simp only [bool_eq_false h4, Bool.false_eq_true, if_false]
          by_cases h5 : (!e.encoderOk) = true
          · simp only [h5, if_true]
            exact ⟨by simp [resOk], by simp [resOk]⟩
          · simp only [bool_eq_false h5, Bool.false_eq_true, if_false]
            cases hsp : e.spawn with
            | none => exact ⟨by simp [resOk], by simp [resOk]⟩
            | some pid =>
                by_cases h6 : (!e.insertOk) = true
                · simp only [h6, if_true]
                  exact ⟨by simp [resOk], by simp [resOk]⟩
                · simp only [bool_eq_false h6, Bool.false_eq_true, if_false]
                  constructor
                  · show lookupA id (insertA j pid st.recProcesses)
                        = lookupA id st.recProcesses
                    exact lookupA_insertA_ne j id pid st.recProcesses hne
                  · show countUnfinished id
                        (st.recordings ++ [pendingRow j st])
                      = countUnfinished id st.recordings
                    rw [countUnfinished_append,
                        countUnfinished_singleton_miss id (pendingRow j st)
                          hne, Nat.add_zero]

/-- `stop_recording` for a different camera neither removes this camera's
recording handle nor changes its count of unfinished rows (given unique row
ids, which SQLite guarantees). -/
theorem stop_recording_other (e : StopRecEnv) (j id : Int) (st : St)
    (hne : j ≠ id) (hnd : (st.recordings.map RecRow.recId).Nodup) :
    lookupA id (stop_recording_internal e j st).2.1.recProcesses
        = lookupA id st.recProcesses
    ∧ countUnfinished id (stop_recording_internal e j st).2.1.recordings
        = countUnfinished id st.recordings := by
  unfold stop_recording_internal
  by_cases hdb : (!e.dbOk) = true
  · simp only [hdb, if_true]
    exact ⟨lookupA_removeA_ne j id st.recProcesses hne, trivial⟩
  · have hdbf : (!e.dbOk) = false := by simpa using hdb
    simp only [hdbf, Bool.false_eq_true, if_false]
    cases hlast : lastUnfinished j st.recordings with
    | none =>
        simp only [hlast]
        exact ⟨lookupA_removeA_ne j id st.recProcesses hne, trivial⟩
    | some row =>
        obtain ⟨hmem, hcam, _⟩ := lastUnfinished_spec j st.recordings row hlast
        have hrne : row.cameraId ≠ id := by rw [hcam]; exact hne
        simp only [hlast]
        by_cases htmp : e.tempExists = true
        · simp only [htmp, if_true]
          by_cases hrem : (!e.remuxOk) = true
          · simp only [hrem, if_true]
            exact ⟨lookupA_removeA_ne j id st.recProcesses hne, trivial⟩
          · have hremf : (!e.remuxOk) = false := by simpa using hrem
            simp only [hremf, Bool.false_eq_true, if_false]
            exact ⟨lookupA_removeA_ne j id st.recProcesses hne,
                   countUnfinished_finishRow_of_ne id _ _ row st.recordings
                     hnd hmem hrne⟩
        · have htmpf : e.tempExists = false := by simpa using htmp
          simp only [htmpf, Bool.false_eq_true, if_false]
          exact ⟨lookupA_removeA_ne j id st.recProcesses hne,
                 countUnfinished_deleteRow_of_ne id row st.recordings
                   hnd hmem hrne⟩

/-- C1 counterexample: the trace successful `start_recording(1)`;
`stop_recording(1)` whose remux fails (the row stays `is_finished = 0` and
the child handle is removed); successful `start_recording(1)` again — ends
in a state where camera 1 is actively recording (the spawn succeeded and
`stop_recording` has not run since) yet TWO `is_finished = 0` rows exist for
it, refuting the claimed "exactly one is_finished=0 row ... until
stop_recording runs". -/
theorem c1_counterexample :
    resOk (start_recording_internal recEnvOk 1
      (runOps initSt [.startRecOp recEnvOk 1,
                      .stopRecOp stopRecEnvRemuxFail 1])).1 = true
    ∧ (lookupA 1 c1TraceFinal.recProcesses).isSome = true
    ∧ countUnfinished 1 c1TraceFinal.recordings = 2 := by
  decide

/-- C1 (amended): `start_recording` spawns the transcoder child first and
inserts the pending row second: when the spawn fails the call errors and no
row is inserted; when the call succeeds, exactly the one pending
`is_finished = 0` row is appended (so a camera with no prior unfinished row
— e.g. none left behind by a failed finalize — has exactly one) and the
child handle is registered; and that exactly-one state persists across every
further supervisor operation other than `stop_recording` or `stop_stream`
for this camera. -/
theorem c1_atomic_start_recording_amended (env : StartRecEnv) (id : Int)
    (st : St) :
    (env.spawn = none →
      resOk (start_recording_internal env id st).1 = false
      ∧ (start_recording_internal env id st).2.1.recordings = st.recordings)
    ∧ (resOk (start_recording_internal env id st).1 = true →
        (start_recording_internal env id st).2.1.recordings
            = st.recordings ++ [pendingRow id st]
        ∧ (lookupA id
             (start_recording_internal env id st).2.1.recProcesses).isSome
             = true
        ∧ (countUnfinished id st.recordings = 0 →
            countUnfinished id
              (start_recording_internal env id st).2.1.recordings = 1))
    ∧ (∀ op : Op, (st.recordings.map RecRow.recId).Nodup →
        (lookupA id st.recProcesses).isSome = true →
        countUnfinished id st.recordings = 1 →
        stopsRecordingOf id op = false →
        (lookupA id (applyOp st op).recProcesses).isSome = true
        ∧ countUnfinished id (applyOp st op).recordings = 1) := by
  refine ⟨?_, ?_, ?_⟩
  · -- spawn failure: an error and no row
    intro hs
    unfold start_recording_internal
    by_cases h1 : (lookupA id st.recProcesses).isSome = true
    · simp only [h1, if_true]
      exact ⟨by simp [resOk], by simp [resOk]⟩
    · simp only [bool_eq_false h1, Bool.false_eq_true, if_false]
      by_cases h2 : (!env.dbOk) = true
      · simp only [h2, if_true]
        exact ⟨by simp [resOk], by simp [resOk]⟩
      · simp only [bool_eq_false h2, Bool.false_eq_true, if_false]
        by_cases h3 : (!(st.cameras.contains id)) = true
        · simp only [h3, if_true]
          exact ⟨by simp [resOk], by simp [resOk]⟩
        · simp only [bool_eq_false h3, Bool.false_eq_true, if_false]
          by_cases h4 : (!env.rtspOk) = true
          · simp only [h4, if_true]
            exact ⟨by simp [resOk], by simp [resOk]⟩
          · simp only [bool_eq_false h4, Bool.false_eq_true, if_false]
            by_cases h5 : (!env.encoderOk) = true
            · simp only [h5, if_true]
              exact ⟨by simp [resOk], by simp [resOk]⟩
            · simp only [bool_eq_false h5, Bool.false_eq_true, if_false, hs]
              exact ⟨by simp [resOk], by simp [resOk]⟩
  · -- success: exactly the pending row appended, handle registered
    intro hok
    unfold start_recording_internal at hok ⊢
    by_cases h1 : (lookupA id st.recProcesses).isSome = true
    · rw [if_pos h1] at hok
      simp [resOk] at hok
    · simp only [bool_eq_false h1, Bool.false_eq_true, if_false] at hok ⊢
      by_cases h2 : (!env.dbOk) = true
      · rw [if_pos h2] at hok
        simp [resOk] at hok
      · simp only [bool_eq_false h2, Bool.false_eq_true, if_false] at hok ⊢
        by_cases h3 : (!(st.cameras.contains id)) = true
        · rw [if_pos h3] at hok
          simp [resOk] at hok
        · simp only [bool_eq_false h3, Bool.false_eq_true, if_false] at hok ⊢
          by_cases h4 : (!env.rtspOk) = true
          · rw [if_pos h4] at hok
            simp [resOk] at hok
          · simp only [bool_eq_false h4, Bool.false_eq_true, if_false]
              at hok ⊢
            by_cases h5 : (!env.encoderOk) = true
            · rw [if_pos h5] at hok
              simp [resOk] at hok
            · simp only [bool_eq_false h5, Bool.false_eq_true, if_false]
                at hok ⊢
              cases hsp : env.spawn with
              | none =>
                  simp only [hsp] at hok
                  simp [resOk] at hok
              | some pid =>
                  simp only [hsp] at hok ⊢
                  by_cases h6 : (!env.insertOk) = true
                  · rw [if_pos h6] at hok
                    simp [resOk] at hok
                  · simp only [bool_eq_false h6, Bool.false_eq_true, if_false]
                      at hok ⊢
                    refine ⟨rfl, ?_, ?_⟩
                    · show (lookupA id
                          (insertA id pid st.recProcesses)).isSome = true
                      rw [lookupA_insertA_self]
                      rfl
                    · intro h0
                      show countUnfinished id
                          (st.recordings ++ [pendingRow id st]) = 1
                      rw [countUnfinished_append, h0,
                          countUnfinished_singleton_hit id (pendingRow id st)
                            rfl rfl]
  · -- the exactly-one state persists until a stop for this camera
    intro op hnd hlk hcnt hstop
    cases op with
    | startStreamOp e cam =>
        have h := start_stream_preserves_recording_state e cam st
        show (lookupA id (start_stream e cam st).2.1.recProcesses).isSome
              = true
          ∧ countUnfinished id (start_stream e cam st).2.1.recordings = 1
        rw [h.1, h.2]
        exact ⟨hlk, hcnt⟩
    | stopStreamOp e j =>
        have hne : j ≠ id := by
          have : (j == id) = false := hstop
          exact beq_eq_false_iff_ne.mp this
        have h := stop_stream_other e j id st hne
        show (lookupA id (stop_stream e j st).2.1.recProcesses).isSome = true
          ∧ countUnfinished id (stop_stream e j st).2.1.recordings = 1
        rw [h.1, h.2]
        exact ⟨hlk, hcnt⟩
    | startRecOp e j =>
        show (lookupA id
                (start_recording_internal e j st).2.1.recProcesses).isSome
              = true
          ∧ countUnfinished id
              (start_recording_internal e j st).2.1.recordings = 1
        by_cases hj : j = id
        · subst hj
          have hself : start_recording_internal e j st
              = (.error "Recording is already in progress", st, []) := by
            unfold start_recording_internal
            rw [if_pos hlk]
          rw [hself]
          exact ⟨hlk, hcnt⟩
        · have h := start_recording_other e j id st hj
          rw [h.1, h.2]
          exact ⟨hlk, hcnt⟩
    | stopRecOp e j =>
        have hne : j ≠ id := by
          have : (j == id) = false := hstop
          exact beq_eq_false_iff_ne.mp this
        have h := stop_recording_other e j id st hne hnd
        show (lookupA id
                (stop_recording_internal e j st).2.1.recProcesses).isSome
              = true
          ∧ countUnfinished id
              (stop_recording_internal e j st).2.1.recordings = 1
        rw [h.1, h.2]
        exact ⟨hlk, hcnt⟩

/-- Witness for C1 (amended): a failed spawn from `initSt` inserts nothing;
a successful start appends exactly the pending row and registers the handle;
and a `stop_recording` for the OTHER camera 2 leaves camera 1's exactly-one
state intact. -/
theorem c1_atomic_start_recording_amended_witness :
    (resOk (start_recording_internal
        { recEnvOk with spawn := none } 1 initSt).1 = false
      ∧ (start_recording_internal
          { recEnvOk with spawn := none } 1 initSt).2.1.recordings
          = initSt.recordings)
    ∧ (countUnfinished 1
          (start_recording_internal recEnvOk 1 initSt).2.1.recordings = 1)
    ∧ ((lookupA 1 (applyOp (start_recording_internal recEnvOk 1 initSt).2.1
          (.stopRecOp stopRecEnvOk 2)).recProcesses).isSome = true
      ∧ countUnfinished 1 (applyOp (start_recording_internal recEnvOk 1
          initSt).2.1 (.stopRecOp stopRecEnvOk 2)).recordings = 1) := by
  refine ⟨?_, ?_, ?_⟩
  · exact (c1_atomic_start_recording_amended
      { recEnvOk with spawn := none } 1 initSt).1 rfl
  · exact ((c1_atomic_start_recording_amended recEnvOk 1 initSt).2.1
      (by decide)).2.2 (by decide)
  · exact (c1_atomic_start_recording_amended recEnvOk 1
      (start_recording_internal recEnvOk 1 initSt).2.1).2.2
      (.stopRecOp stopRecEnvOk 2) (by decide) (by decide) (by decide)
      (by decide)

theorem c3_stop_stream_cascade_amended_witness :
    resOk (stop_stream { recDbOk := true } 1
            { c3St with recProcesses := [(1, 6)] }).1 = true
    ∧ Ev.killed 5 ∈ (stop_stream { recDbOk := true } 1
            { c3St with recProcesses := [(1, 6)] }).2.2
    ∧ countUnfinished 1 (stop_stream { recDbOk := true } 1
            { c3St with recProcesses := [(1, 6)] }).2.1.recordings = 0
    ∧ lookupA 1 (stop_stream { recDbOk := true } 1
            { c3St with recProcesses := [(1, 6)] }).2.1.recProcesses = none := by
  have h := c3_stop_stream_cascade_amended { recDbOk := true } 1
    { c3St with recProcesses := [(1, 6)] }
  refine ⟨h.1, h.2.2.1 5 (by decide), ?_, ?_⟩
  · exact (h.2.2.2.1 (by decide) rfl).1
  · exact (h.2.2.2.1 (by decide) rfl).2


/-! ## C5: GpuOnly with missing gpu_encoder panics (no error result) -/

/-- C5 counterexample: with `encoder_mode = GpuOnly` and `gpu_encoder =
null`, selecting an encoder for streaming or for recording PANICS (via
`expect`) — the outcome is not an `Err` value returned to the caller, so the
claim that an error result is returned is false; it also does not succeed
with a CPU configuration. -/
theorem c5_counterexample :
    (select_encoder_for_streaming
        { capabilities := nvCaps, settings := gpuOnlyNullSettings }
        none none).isPanic = true
    ∧ (select_encoder_for_streaming
        { capabilities := nvCaps, settings := gpuOnlyNullSettings }
        none none).isErr = false
    ∧ (select_encoder_for_recording
        { capabilities := nvCaps, settings := gpuOnlyNullSettings }
        none).isPanic = true
    ∧ (select_encoder_for_recording
        { capabilities := nvCaps, settings := gpuOnlyNullSettings }
        none).isErr = false := by
  decide

/-- C5 (amended): in `GpuOnly` mode with `gpu_encoder = null`, both encoder
selections panic with the `expect` message — a hard failure that never
returns (neither a CPU configuration nor an `Err` value reaches the
caller). -/
theorem c5_gpu_only_missing_encoder_amended (caps : GpuCapabilities)
    (settings : EncoderSettings) (fps : Option Int)
    (testOutput : Option ProcOutput)
    (hmode : settings.encoderMode = "GpuOnly")
    (hgpu : settings.gpuEncoder = none) :
    select_encoder_for_streaming { capabilities := caps, settings := settings }
        fps testOutput = .panic "GPU encoder must be set for GpuOnly mode"
    ∧ select_encoder_for_recording
        { capabilities := caps, settings := settings } testOutput
        = .panic "GPU encoder must be set for GpuOnly mode" := by
  cases settings with
  | mk i m g c pr q =>
      change m = "GpuOnly" at hmode
      change g = none at hgpu
      subst hmode
      subst hgpu
      exact ⟨rfl, rfl⟩

/-- Witness for C5 (amended) at the concrete null-GPU settings. -/
theorem c5_gpu_only_missing_encoder_amended_witness :
    select_encoder_for_streaming
        { capabilities := nvCaps, settings := gpuOnlyNullSettings }
        (some 30) (some zeroExitNoFrame)
        = .panic "GPU encoder must be set for GpuOnly mode"
    ∧ select_encoder_for_recording
        { capabilities := nvCaps, settings := gpuOnlyNullSettings }
        (some zeroExitNoFrame)
        = .panic "GPU encoder must be set for GpuOnly mode" :=
  c5_gpu_only_missing_encoder_amended nvCaps gpuOnlyNullSettings
    (some 30) (some zeroExitNoFrame) rfl rfl

/-! ## C6: the functional encoder test ignores the frame= substring -/

/-- C6 counterexample: a functional-test run that exits zero but whose
stderr lacks `frame=` is counted a SUCCESS — `test_encoder` returns true and
Auto mode keeps the GPU configuration — refuting the claim that such a run
is a failure causing CPU fallback. -/
theorem c6_counterexample :
    containsSubstr zeroExitNoFrame.stderr "frame=" = false
    ∧ zeroExitNoFrame.exitSuccess = true
    ∧ test_encoder "h264_nvenc" (some zeroExitNoFrame) = true
    ∧ select_encoder_for_streaming autoNvSelector none (some zeroExitNoFrame)
        = .ok (build_gpu_config_streaming autoNvSelector "h264_nvenc" none)
    ∧ (build_gpu_config_streaming autoNvSelector "h264_nvenc" none).isGpu
        = true := by
  decide

/-- C6 (amended): the functional test counts a run as failure iff the
command could not run or exited non-zero; the diagnostic stream — in
particular the `frame=` substring — never influences the verdict, and in
Auto mode (GPU encoder configured and available) the CPU fallback is taken
exactly on a non-successful exit. -/
theorem c6_encoder_test_amended (caps : GpuCapabilities)
    (settings : EncoderSettings) (g : String) (fps : Option Int)
    (r : ProcOutput)
    (hmode : settings.encoderMode = "Auto")
    (hg : settings.gpuEncoder = some g)
    (hav : caps.availableEncoders.contains g = true) :
    test_encoder g (some r) = r.exitSuccess
    ∧ (∀ r2 : ProcOutput, r2.exitSuccess = r.exitSuccess →
        test_encoder g (some r2) = test_encoder g (some r))
    ∧ select_encoder_for_streaming
        { capabilities := caps, settings := settings } fps (some r)
        = .ok (if r.exitSuccess then
                 build_gpu_config_streaming
                   { capabilities := caps, settings := settings } g fps
               else build_cpu_config_streaming
                 { capabilities := caps, settings := settings } fps) := by
  refine ⟨rfl, ?_, ?_⟩
  · intro r2 h2
    show r2.exitSuccess = r.exitSuccess
    exact h2
  · cases settings with
    | mk i m gv c pr q =>
        change m = "Auto" at hmode
        change gv = some g at hg
        subst hmode
        subst hg
        unfold select_encoder_for_streaming
        dsimp only
        simp only [beq_self_eq_true, if_true]
        rw [if_pos hav]
        by_cases hr : r.exitSuccess = true
        · simp [test_encoder, hr]
        · simp [test_encoder, bool_eq_false hr]

/-- Witness for C6 (amended) at the concrete zero-exit, no-`frame=` run. -/
theorem c6_encoder_test_amended_witness :
    test_encoder "h264_nvenc" (some zeroExitNoFrame)
        = zeroExitNoFrame.exitSuccess
    ∧ select_encoder_for_streaming autoNvSelector none (some zeroExitNoFrame)
        = .ok (if zeroExitNoFrame.exitSuccess then
                 build_gpu_config_streaming autoNvSelector "h264_nvenc" none
               else build_cpu_config_streaming autoNvSelector none) := by
  have h := c6_encoder_test_amended nvCaps autoNvSettings "h264_nvenc" none
    zeroExitNoFrame rfl rfl (by decide)
  exact ⟨h.1, h.2.2⟩

/-! ## C7: GetSystemDateAndTime is sent unauthenticated -/

/-- C7: the `GetSystemDateAndTime` envelope carries no WS-Security
`UsernameToken` header for ANY camera — credentials configured or not —
while the authenticated operations (`GetProfiles`, `GetStreamUri`,
`GetCapabilities`, `SetSystemDateAndTime`) carry the header exactly when the
camera user name is non-empty. -/
theorem c7_gsdt_unauthenticated (env : SecEnv) (cam : Camera)
    (dt : ONVIFDateTime) (token : String) :
    (get_system_date_time_request env cam).security = none
    ∧ ((cam.user.getD "") ≠ "" →
        (get_profiles_request env cam).security
            = some (generate_security_header env (cam.user.getD "")
                (cam.pass.getD ""))
        ∧ (get_stream_uri_request env cam token).security.isSome = true
        ∧ (get_capabilities_request env cam).security.isSome = true
        ∧ (set_system_date_time_request env cam dt).security.isSome = true)
    ∧ ((cam.user.getD "") = "" →
        (get_profiles_request env cam).security = none) := by
  refine ⟨rfl, ?_, ?_⟩
  · intro h
    unfold get_profiles_request get_stream_uri_request
      get_capabilities_request set_system_date_time_request
      build_soap_envelope
    rw [if_neg h]
    exact ⟨rfl, rfl, rfl, rfl⟩
  · intro h
    unfold get_profiles_request build_soap_envelope
    rw [if_pos h]

/-- Witness for C7 at a camera with configured credentials and at one
without. -/
theorem c7_gsdt_unauthenticated_witness :
    (get_system_date_time_request secEnv0 camAdmin).security = none
    ∧ (get_profiles_request secEnv0 camAdmin).security
        = some (generate_security_header secEnv0 (camAdmin.user.getD "")
            (camAdmin.pass.getD ""))
    ∧ (get_profiles_request secEnv0 { id := 2 }).security = none := by
  refine ⟨?_, ?_, ?_⟩
  · exact (c7_gsdt_unauthenticated secEnv0 camAdmin
      ⟨2024, 1, 1, 0, 0, 0⟩ "tok").1
  · exact ((c7_gsdt_unauthenticated secEnv0 camAdmin
      ⟨2024, 1, 1, 0, 0, 0⟩ "tok").2.1 (by decide)).1
  · exact (c7_gsdt_unauthenticated secEnv0 { id := 2 }
      ⟨2024, 1, 1, 0, 0, 0⟩ "tok").2.2 rfl

/-! ## C8: sync_camera_time verification status -/

/-- C8 counterexample: a sync run whose initial camera-vs-server delta is 0
seconds (under 2) but whose post-sync re-read succeeds is reported
`verified`, NOT `already synchronized` — and when the re-read succeeds but
is far off, the report is the may-not-have-been-set one — refuting
"already synchronized **whenever** the initial delta is under 2 s". -/
theorem c8_counterexample :
    sync_camera_time_message 1000 1000 1005 (some 1005)
        = SyncMessage.verified 0
    ∧ ((1000 : Int) - 1000).natAbs < 2
    ∧ (sync_camera_time_message 1000 1000 1005 (some 1005)).isAlreadySynced
        = false
    ∧ sync_camera_time_message 1000 1000 1200 (some 1000)
        = SyncMessage.mayNotBeSet 0 200
    ∧ (sync_camera_time_message 1000 1000 1200 (some 1000)).isAlreadySynced
        = false := by
  decide

/-- C8 (amended): the status is `verified` iff the post-sync re-read
succeeded and its delta from the current server time is under 5 s;
`already synchronized` iff the re-read is unavailable AND the initial delta
is under 2 s; and one of the two unverified messages otherwise. -/
theorem c8_sync_status_amended (d : Int) (fd : Option Int) :
    (sync_message d fd).isAlreadySynced
        = (fd.isNone && decide (d.natAbs < 2))
    ∧ (sync_message d fd).isVerified
        = (match fd with
           | some f => decide (f.natAbs < 5)
           | none => false)
    ∧ (sync_message d fd).isUnverified
        = (match fd with
           | some f => decide (5 ≤ f.natAbs)
           | none => decide (2 ≤ d.natAbs)) := by
  cases fd with
  | none =>
      by_cases h : d.natAbs < 2
      · simp [sync_message, SyncMessage.isAlreadySynced,
              SyncMessage.isVerified, SyncMessage.isUnverified, h]
        all_goals omega
      · simp [sync_message, SyncMessage.isAlreadySynced,
              SyncMessage.isVerified, SyncMessage.isUnverified, h]
        all_goals omega
  | some f =>
      by_cases h : f.natAbs < 5
      · simp [sync_message, SyncMessage.isAlreadySynced,
              SyncMessage.isVerified, SyncMessage.isUnverified, h]
        all_goals omega
      · simp [sync_message, SyncMessage.isAlreadySynced,
              SyncMessage.isVerified, SyncMessage.isUnverified, h]
        all_goals omega

/-! ## C9: probe-reply scope parsing -/

/-- C9 counterexample: a reply whose scopes carry BOTH a `/name/` and a
`/hardware/` fragment yields the hardware fragment as the manufacturer —
the manufacturer does NOT stay at its default `"Unknown"`. -/
theorem c9_counterexample :
    parse_probe_match_scopes c9Scopes = ("Cam1", "HW1")
    ∧ (parse_probe_match_scopes c9Scopes).2 ≠ "Unknown" := by
  decide

/-- The scope scan never writes the manufacturer component. -/
theorem scanScopes_manufacturer_fixed (l : List String)
    (a : String × String × String) :
    (l.foldl scanScopeStep a).2.1 = a.2.1 := by
  induction l generalizing a with
  | nil => rfl
  | cons x xs ih =>
      rw [List.foldl_cons, ih]
      unfold scanScopeStep
      by_cases h1 : containsSubstr (urldecode x) "/name/" = true
      · simp [h1]
      · by_cases h2 : containsSubstr (urldecode x) "/hardware/" = true
        · simp [bool_eq_false h1, h2]
        · simp [bool_eq_false h1, bool_eq_false h2]

/-- C9 (amended): the display name is the scan's name component, and the
URL-decoded `/hardware/` fragment becomes the manufacturer WHENEVER it is
non-empty — regardless of whether a `/name/` fragment was present; only
when no hardware fragment was seen does the manufacturer stay at
`"Unknown"`. -/
theorem c9_scope_parse_amended (scopesText : String) :
    (parse_probe_match_scopes scopesText).1 = (scanScopes scopesText).1
    ∧ ((scanScopes scopesText).2.2 ≠ "" →
        (parse_probe_match_scopes scopesText).2 = (scanScopes scopesText).2.2)
    ∧ ((scanScopes scopesText).2.2 = "" →
        (parse_probe_match_scopes scopesText).2 = "Unknown") := by
  have hman : (scanScopes scopesText).2.1 = "Unknown" :=
    scanScopes_manufacturer_fixed (splitWs scopesText)
      ("Unknown Camera", "Unknown", "")
  refine ⟨rfl, ?_, ?_⟩
  · intro h
    unfold parse_probe_match_scopes
    simp [hman, h]
  · intro h
    unfold parse_probe_match_scopes
    simp [hman, h]

/-- Witness for C9 (amended): with both fragments present the manufacturer
is the hardware fragment; with no scopes at all it stays `"Unknown"`. -/
theorem c9_scope_parse_amended_witness :
    (parse_probe_match_scopes c9Scopes).2 = (scanScopes c9Scopes).2.2
    ∧ (parse_probe_match_scopes "").2 = "Unknown" :=
  ⟨(c9_scope_parse_amended c9Scopes).2.1 (by decide),
   (c9_scope_parse_amended "").2.2 (by decide)⟩

/-! ## C4: cron canonicalization -/

/-- Five-field input is validated after prepending the seconds field. -/
theorem validate_cron_five (p : String → String → Bool) (E : String)
    (h5 : countFields E = 5) :
    validate_cron_expression p E
      = if p "Asia/Tokyo" ("0 " ++ E) then .ok ("0 " ++ E)
        else .error "Invalid cron expression" := by
  unfold validate_cron_expression normalizeCron
  rw [if_pos h5]

/-- Input that is not five fields long is validated verbatim. -/
theorem validate_cron_not_five (p : String → String → Bool) (E : String)
    (h : countFields E ≠ 5) :
    validate_cron_expression p E
      = if p "Asia/Tokyo" E then .ok E
        else .error "Invalid cron expression" := by
  unfold validate_cron_expression normalizeCron
  rw [if_neg h]

/-- C4: `add_recording_schedule` canonicalizes the cron field: a 5-field
expression that parses with the seconds field prepended is stored as
`"0 " ++ E`; a parsing expression that is not 5 fields (in particular a
valid 6-field one) is stored verbatim; and an expression whose normalized
form does not parse under the `Asia/Tokyo` timezone is rejected with a
validation error and no row is inserted.  (The third-party cron parser is
abstracted as the boolean `p`.) -/
theorem c4_cron_canonicalization (p : String → String → Bool)
    (sched : NewRecordingSchedule) (rows : List ScheduleRow) (nid : Nat) :
    (countFields sched.cronExpression = 5 →
      p "Asia/Tokyo" ("0 " ++ sched.cronExpression) = true →
      storedCron (add_recording_schedule p sched rows nid)
          = some ("0 " ++ sched.cronExpression)
      ∧ (add_recording_schedule p sched rows nid).2
          = rows ++ [{ schedId := nid, cameraId := sched.cameraId,
                       name := sched.name,
                       cronExpression := "0 " ++ sched.cronExpression,
                       durationMinutes := sched.durationMinutes,
                       fps := sched.fps, isEnabled := sched.isEnabled }])
    ∧ (countFields sched.cronExpression ≠ 5 →
      p "Asia/Tokyo" sched.cronExpression = true →
      storedCron (add_recording_schedule p sched rows nid)
          = some sched.cronExpression
      ∧ (add_recording_schedule p sched rows nid).2
          = rows ++ [{ schedId := nid, cameraId := sched.cameraId,
                       name := sched.name,
                       cronExpression := sched.cronExpression,
                       durationMinutes := sched.durationMinutes,
                       fps := sched.fps, isEnabled := sched.isEnabled }])
    ∧ (p "Asia/Tokyo" (normalizeCron sched.cronExpression) = false →
      resOk (add_recording_schedule p sched rows nid).1 = false
      ∧ storedCron (add_recording_schedule p sched rows nid) = none
      ∧ (add_recording_schedule p sched rows nid).2 = rows) := by
  refine ⟨?_, ?_, ?_⟩
  · intro h5 hp
    unfold add_recording_schedule
    rw [validate_cron_five p sched.cronExpression h5, if_pos hp]
    exact ⟨rfl, rfl⟩
  · intro h5 hp
    unfold add_recording_schedule
    rw [validate_cron_not_five p sched.cronExpression h5, if_pos hp]
    exact ⟨rfl, rfl⟩
  · intro hp
    unfold add_recording_schedule validate_cron_expression
    simp only [hp, Bool.false_eq_true, if_false]
    refine ⟨?_, ?_, ?_⟩ <;> first | rfl | trivial

/-- Witness for C4 with the 6-field parser stub: `"* * * * *"` is stored as
`"0 * * * * *"`; `"0 0 12 * * *"` is stored verbatim; `"* * *"` is rejected
with nothing inserted. -/
theorem c4_cron_canonicalization_witness :
    (storedCron (add_recording_schedule sixFieldAccept (mkSched "* * * * *")
        [] 1) = some ("0 " ++ "* * * * *")
      ∧ (add_recording_schedule sixFieldAccept (mkSched "* * * * *")
          [] 1).2
          = [] ++ [{ schedId := 1,
                     cameraId := (mkSched "* * * * *").cameraId,
                     name := (mkSched "* * * * *").name,
                     cronExpression :=
                       "0 " ++ (mkSched "* * * * *").cronExpression,
                     durationMinutes := (mkSched "* * * * *").durationMinutes,
                     fps := (mkSched "* * * * *").fps,
                     isEnabled := (mkSched "* * * * *").isEnabled }])
    ∧ (storedCron (add_recording_schedule sixFieldAccept
        (mkSched "0 0 12 * * *") [] 1) = some "0 0 12 * * *"
      ∧ (add_recording_schedule sixFieldAccept (mkSched "0 0 12 * * *")
          [] 1).2
          = [] ++ [{ schedId := 1,
                     cameraId := (mkSched "0 0 12 * * *").cameraId,
                     name := (mkSched "0 0 12 * * *").name,
                     cronExpression := (mkSched "0 0 12 * * *").cronExpression,
                     durationMinutes :=
                       (mkSched "0 0 12 * * *").durationMinutes,
                     fps := (mkSched "0 0 12 * * *").fps,
                     isEnabled := (mkSched "0 0 12 * * *").isEnabled }])
    ∧ (resOk (add_recording_schedule sixFieldAccept (mkSched "* * *")
        [] 1).1 = false
      ∧ storedCron (add_recording_schedule sixFieldAccept (mkSched "* * *")
          [] 1) = none
      ∧ (add_recording_schedule sixFieldAccept (mkSched "* * *") [] 1).2
          = []) :=
  ⟨(c4_cron_canonicalization sixFieldAccept (mkSched "* * * * *") [] 1).1
      (by decide) (by decide),
   (c4_cron_canonicalization sixFieldAccept (mkSched "0 0 12 * * *") [] 1).2.1
      (by decide) (by decide),
   (c4_cron_canonicalization sixFieldAccept (mkSched "* * *") [] 1).2.2
      (by decide)⟩

end CamViewer
